import Mathlib

/-!
Verification of the `parrot_project` CAN fault-confinement simulation.

The development shallowly embeds the core of the repository:
  * `src/parrot_project/utils.py` — `ErrorStates`, `CanNode`
    (`collide`, `succeed`, `_update_state`) and `CanBusBase.schedule`,
  * `src/parrot_project/experiment_1/simulate.py` — the two-node
    collision-spiral scenario,
  * `src/parrot_project/experiment_3/simulate.py` — the assisted
    three-node bus-off race.

Python integers are modelled as `Int` (unbounded, signed).  The pending
event set of `CanBusBase` is a heapq of tuples `(event_time, order,
callback)`; `order` is the running insertion counter, so the keys
`(event_time, order)` are pairwise distinct and tuple comparison never
reaches the callback.  `heappop` therefore dequeues in strictly
ascending `(event_time, order)` order.  We model that observable
behaviour with a list kept sorted by the strict lexicographic key
order: `schedule` inserts in key order, and the run loops pop the head.
Callbacks are defunctionalised into an event-kind inductive per
scenario (they are bound methods with no arguments in the source).
Logging, history recording and plotting are observation-only I/O and
are omitted.
-/

/-- Fault-confinement states (`utils.py`, class `ErrorStates`). -/
inductive ErrorStates where
  | ACTIVE
  | ERROR_PASSIVE
  | BUS_OFF
deriving DecidableEq, Repr

/-- One ECU (`utils.py`, class `CanNode`): a name, a transmit error
counter and a stored state, initialised to `TEC = 0`, `ACTIVE`. -/
structure CanNode where
  name : String
  TEC : Int
  state : ErrorStates
deriving DecidableEq, Repr

namespace CanNode

/-- `CanNode.__init__`: counter 0, state ACTIVE. -/
def init (name : String) : CanNode :=
  { name := name, TEC := 0, state := ErrorStates.ACTIVE }

/-- `CanNode._update_state`: recompute the stored state from the
counter with the fixed thresholds 256 and 128. -/
def update_state (n : CanNode) : CanNode :=
  if n.TEC ≥ 256 then { n with state := ErrorStates.BUS_OFF }
  else if n.TEC ≥ 128 then { n with state := ErrorStates.ERROR_PASSIVE }
  else { n with state := ErrorStates.ACTIVE }

/-- `CanNode.collide`: add 8 to the counter, then update the state. -/
def collide (n : CanNode) : CanNode :=
  update_state { n with TEC := n.TEC + 8 }

/-- `CanNode.succeed`: subtract 1 from the counter if it is positive
(no-op at 0), then update the state. -/
def succeed (n : CanNode) : CanNode :=
  update_state { n with TEC := if n.TEC > 0 then n.TEC - 1 else n.TEC }

end CanNode

/-- The pure state-derivation function of `_update_state`: the state an
update leaves on a node whose counter is `t`. -/
def stateOfTEC (t : Int) : ErrorStates :=
  if t ≥ 256 then ErrorStates.BUS_OFF
  else if t ≥ 128 then ErrorStates.ERROR_PASSIVE
  else ErrorStates.ACTIVE

/-- A scheduled event: the heapq tuple `(event_time, order, callback)`
with the callback defunctionalised to a kind `K`. -/
structure Event (K : Type) where
  time : Int
  seq : Nat
  kind : K
deriving DecidableEq, Repr

namespace Event

/-- Strict lexicographic order on the `(event_time, order)` key — the
order in which `heappop` dequeues, since keys are pairwise distinct. -/
def keyLT {K : Type} (a b : Event K) : Bool :=
  a.time < b.time || (a.time == b.time && a.seq < b.seq)

end Event

/-- Insert an event into a key-sorted pending list, keeping it sorted;
an event whose key is not strictly smaller goes after, so equal fire
times keep insertion (FIFO) order. -/
def insertEv {K : Type} (e : Event K) : List (Event K) → List (Event K)
  | [] => [e]
  | x :: xs => if Event.keyLT e x then e :: x :: xs else x :: insertEv e xs

/-- Scheduler/scenario base state (`utils.py`, class `CanBusBase`):
virtual clock, pending events, insertion counter, round counter, and
the attacker and defender nodes. -/
structure CanBusBase (K : Type) where
  time_us : Int
  events : List (Event K)
  counter : Nat
  rounds : Nat
  attacker : CanNode
  defender : CanNode
deriving DecidableEq, Repr

namespace CanBusBase

/-- `CanBusBase.__init__`: clock 0, no events, counter 0, rounds 0,
fresh attacker and defender nodes. -/
def init (K : Type) : CanBusBase K :=
  { time_us := 0, events := [], counter := 0, rounds := 0
    attacker := CanNode.init "[E] ATTACKER"
    defender := CanNode.init "[A] DEFENDER" }

/-- `CanBusBase.schedule`: push `(time_us + delay_us, counter, callback)`
into the pending set and bump the counter.  The source performs no
validation of `delay_us`. -/
def schedule {K : Type} (delay_us : Int) (cb : K) (s : CanBusBase K) :
    CanBusBase K :=
  { s with
    events := insertEv ⟨s.time_us + delay_us, s.counter, cb⟩ s.events
    counter := s.counter + 1 }

end CanBusBase

/-- Apply a sequence of node mutations in order: `true` is a `collide()`
call, `false` a `succeed()` (recovery) call. -/
def CanNode.applySeq (ops : List Bool) (n : CanNode) : CanNode :=
  ops.foldl (fun nd b => if b then CanNode.collide nd else CanNode.succeed nd) n

theorem CanNode.update_state_state (n : CanNode) :
    (CanNode.update_state n).state = stateOfTEC n.TEC := by
  unfold CanNode.update_state stateOfTEC
  split
  · rfl
  · split <;> rfl

theorem CanNode.update_state_TEC (n : CanNode) :
    (CanNode.update_state n).TEC = n.TEC := by
  unfold CanNode.update_state
  split
  · rfl
  · split <;> rfl

theorem CanNode.collide_TEC (n : CanNode) :
    (CanNode.collide n).TEC = n.TEC + 8 := by
  unfold CanNode.collide
  rw [CanNode.update_state_TEC]

theorem CanNode.collide_state (n : CanNode) :
    (CanNode.collide n).state = stateOfTEC (n.TEC + 8) := by
  unfold CanNode.collide
  rw [CanNode.update_state_state]

theorem CanNode.succeed_TEC (n : CanNode) :
    (CanNode.succeed n).TEC = if n.TEC > 0 then n.TEC - 1 else n.TEC := by
  unfold CanNode.succeed
  rw [CanNode.update_state_TEC]

theorem CanNode.succeed_state (n : CanNode) :
    (CanNode.succeed n).state =
      stateOfTEC (if n.TEC > 0 then n.TEC - 1 else n.TEC) := by
  unfold CanNode.succeed
  rw [CanNode.update_state_state]

/-- C1: after either mutation (`collide` or `succeed`) a node's stored
state is exactly the threshold derivation of its counter: `BUS_OFF` for
counter ≥ 256, `ERROR_PASSIVE` for 128 ≤ counter < 256, `ACTIVE` for
counter < 128; in particular 127 derives ACTIVE, 128–255 derive
ERROR_PASSIVE, and ≥ 256 derives BUS_OFF. -/
theorem c1_state_derivation :
    (∀ n : CanNode, (CanNode.collide n).state = stateOfTEC (CanNode.collide n).TEC) ∧
    (∀ n : CanNode, (CanNode.succeed n).state = stateOfTEC (CanNode.succeed n).TEC) ∧
    (∀ t : Int, 256 ≤ t → stateOfTEC t = ErrorStates.BUS_OFF) ∧
    (∀ t : Int, 128 ≤ t → t < 256 → stateOfTEC t = ErrorStates.ERROR_PASSIVE) ∧
    (∀ t : Int, t < 128 → stateOfTEC t = ErrorStates.ACTIVE) ∧
    stateOfTEC 127 = ErrorStates.ACTIVE := by
  refine ⟨?_, ?_, ?_, ?_, ?_, rfl⟩
  · intro n
    rw [CanNode.collide_state, CanNode.collide_TEC]
  · intro n
    rw [CanNode.succeed_state, CanNode.succeed_TEC]
  · intro t ht
    unfold stateOfTEC
    rw [if_pos ht]
  · intro t h1 h2
    unfold stateOfTEC
    rw [if_neg (by omega), if_pos h1]
  · intro t ht
    unfold stateOfTEC
    rw [if_neg (by omega), if_neg (by omega)]

/-- Witness for C1 at the boundary counters 127, 128, 255 and 256. -/
theorem c1_state_derivation_witness :
    stateOfTEC 127 = ErrorStates.ACTIVE ∧
    stateOfTEC 128 = ErrorStates.ERROR_PASSIVE ∧
    stateOfTEC 255 = ErrorStates.ERROR_PASSIVE ∧
    stateOfTEC 256 = ErrorStates.BUS_OFF :=
  ⟨c1_state_derivation.2.2.2.2.1 127 (by decide),
   c1_state_derivation.2.2.2.1 128 (by decide) (by decide),
   c1_state_derivation.2.2.2.1 255 (by decide) (by decide),
   c1_state_derivation.2.2.1 256 (by decide)⟩

theorem CanNode.iterate_collide_TEC (nm : String) (k : Nat) :
    (CanNode.collide^[k] (CanNode.init nm)).TEC = 8 * k := by
  induction k with
  | zero => rfl
  | succ m ih =>
      rw [Function.iterate_succ_apply', CanNode.collide_TEC, ih]
      push_cast
      ring

/-- C3: each `collide()` adds exactly 8 to the counter and re-derives
the state; `n` collisions from a fresh node (counter 0) give counter
`8 n`, and 16 of them give counter 128 with state ERROR_PASSIVE. -/
theorem c3_collision_step (nm : String) (k : Nat) :
    (∀ n : CanNode, (CanNode.collide n).TEC = n.TEC + 8 ∧
      (CanNode.collide n).state = stateOfTEC (n.TEC + 8)) ∧
    (CanNode.collide^[k] (CanNode.init nm)).TEC = 8 * k ∧
    (CanNode.collide^[16] (CanNode.init nm)).TEC = 128 ∧
    (CanNode.collide^[16] (CanNode.init nm)).state =
      ErrorStates.ERROR_PASSIVE := by
  refine ⟨fun n => ⟨CanNode.collide_TEC n, CanNode.collide_state n⟩,
    CanNode.iterate_collide_TEC nm k, ?_, ?_⟩
  · rw [CanNode.iterate_collide_TEC nm 16]
    norm_num
  · rw [Function.iterate_succ_apply', CanNode.collide_state,
      CanNode.iterate_collide_TEC nm 15]
    rfl

theorem CanNode.applySeq_nonneg (ops : List Bool) (n : CanNode)
    (h : 0 ≤ n.TEC) : 0 ≤ (CanNode.applySeq ops n).TEC := by
  induction ops generalizing n with
  | nil => exact h
  | cons b bs ih =>
      unfold CanNode.applySeq
      rw [List.foldl_cons]
      refine ih _ ?_
      by_cases hb : b = true
      · subst hb
        simp only [if_pos]
        rw [CanNode.collide_TEC]
        omega
      · rw [if_neg hb, CanNode.succeed_TEC]
        split <;> omega

/-- C4: `succeed()` (recovery) subtracts exactly 1 when the counter is
positive, is a no-op on the counter at 0, and re-derives the state; the
counter stays non-negative after any sequence of collide/recover calls
starting from a fresh node. -/
theorem c4_recover_floor (nm : String) (n : CanNode) (ops : List Bool) :
    (0 < n.TEC → (CanNode.succeed n).TEC = n.TEC - 1) ∧
    (n.TEC = 0 → (CanNode.succeed n).TEC = 0) ∧
    (CanNode.succeed n).state = stateOfTEC (CanNode.succeed n).TEC ∧
    0 ≤ (CanNode.applySeq ops (CanNode.init nm)).TEC := by
  refine ⟨?_, ?_, ?_, CanNode.applySeq_nonneg ops _ (le_refl 0)⟩
  · intro h
    rw [CanNode.succeed_TEC, if_pos h]
  · intro h
    rw [CanNode.succeed_TEC, h]
    rfl
  · rw [CanNode.succeed_state, CanNode.succeed_TEC]

/-- Witness for C4 at a node with counter 3 and the call sequence
collide–recover–recover. -/
theorem c4_recover_floor_witness :
    (CanNode.succeed { name := "n", TEC := 3, state := ErrorStates.ACTIVE }).TEC = 2 ∧
    0 ≤ (CanNode.applySeq [true, false, false] (CanNode.init "n")).TEC := by
  refine ⟨?_, (c4_recover_floor "n" (CanNode.init "n") [true, false, false]).2.2.2⟩
  have h := (c4_recover_floor "n"
    { name := "n", TEC := 3, state := ErrorStates.ACTIVE } []).1 (by decide)
  rw [h]
  decide

/-- Key-sorted pending list: the invariant `schedule` maintains and the
run loops rely on when popping the head. -/
def SortedEv {K : Type} (l : List (Event K)) : Prop :=
  List.Pairwise (fun a b => Event.keyLT a b = true) l

/-- All pending sequence numbers are below the insertion counter. -/
def SeqBound {K : Type} (l : List (Event K)) (c : Nat) : Prop :=
  ∀ e ∈ l, e.seq < c

/-- All pending fire times are at or after a clock value `t`. -/
def TimeLB {K : Type} (l : List (Event K)) (t : Int) : Prop :=
  ∀ e ∈ l, t ≤ e.time

theorem Event.keyLT_iff {K : Type} (a b : Event K) :
    Event.keyLT a b = true ↔
      a.time < b.time ∨ (a.time = b.time ∧ a.seq < b.seq) := by
  simp [Event.keyLT]

theorem Event.keyLT_trans {K : Type} {a b c : Event K}
    (h1 : Event.keyLT a b = true) (h2 : Event.keyLT b c = true) :
    Event.keyLT a c = true := by
  rw [Event.keyLT_iff] at h1 h2 ⊢
  omega

theorem Event.keyLT_asymm {K : Type} {a b : Event K}
    (h : Event.keyLT a b = true) : Event.keyLT b a = false := by
  rw [Event.keyLT_iff] at h
  rw [Bool.eq_false_iff, Ne, Event.keyLT_iff]
  omega

theorem Event.keyLT_total {K : Type} {a b : Event K}
    (h : a.seq ≠ b.seq) :
    Event.keyLT a b = true ∨ Event.keyLT b a = true := by
  rw [Event.keyLT_iff, Event.keyLT_iff]
  omega

theorem Event.keyLT_time_le {K : Type} {a b : Event K}
    (h : Event.keyLT a b = true) : a.time ≤ b.time := by
  rw [Event.keyLT_iff] at h
  omega

theorem mem_insertEv {K : Type} (e y : Event K) (l : List (Event K)) :
    y ∈ insertEv e l ↔ y = e ∨ y ∈ l := by
  induction l with
  | nil => simp [insertEv]
  | cons x xs ih =>
      unfold insertEv
      split
      · simp only [List.mem_cons]
      · simp only [List.mem_cons, ih]
        tauto

theorem self_mem_insertEv {K : Type} (e : Event K) (l : List (Event K)) :
    e ∈ insertEv e l := (mem_insertEv e e l).mpr (Or.inl rfl)

theorem sublist_insertEv {K : Type} (e : Event K) (l : List (Event K)) :
    l.Sublist (insertEv e l) := by
  induction l with
  | nil => simp
  | cons x xs ih =>
      unfold insertEv
      split
      · exact List.Sublist.cons e (List.Sublist.refl _)
      · exact List.Sublist.cons₂ x ih

theorem insertEv_sorted {K : Type} {e : Event K} {l : List (Event K)}
    (hs : SortedEv l) (hne : ∀ x ∈ l, x.seq ≠ e.seq) :
    SortedEv (insertEv e l) := by
  induction l with
  | nil => simp [insertEv, SortedEv]
  | cons x xs ih =>
      obtain ⟨hx, hxs⟩ := List.pairwise_cons.mp hs
      unfold insertEv
      split
      · refine List.Pairwise.cons ?_ (List.Pairwise.cons hx hxs)
        intro y hy
        rcases List.mem_cons.mp hy with h | h
        · subst h; assumption
        · exact Event.keyLT_trans (by assumption) (hx y h)
      · refine List.Pairwise.cons ?_
          (ih hxs (fun z hz => hne z (List.mem_cons_of_mem x hz)))
        intro y hy
        rcases (mem_insertEv e y xs).mp hy with h | h
        · subst h
          rcases Event.keyLT_total
              (hne x (List.mem_cons_self x xs)) with h | h
          · exact h
          · exact absurd h (by assumption)
        · exact hx y h

theorem insertEv_pairwise_ne {K : Type} {e : Event K} {l : List (Event K)}
    {c : Nat} (hb : SeqBound l c) (he : e.seq = c)
    (hd : List.Pairwise (fun a b => a.seq ≠ b.seq) l) :
    List.Pairwise (fun a b => a.seq ≠ b.seq) (insertEv e l) := by
  induction l with
  | nil => simp [insertEv]
  | cons x xs ih =>
      obtain ⟨hx, hxs⟩ := List.pairwise_cons.mp hd
      have hbx : SeqBound xs c := fun z hz => hb z (List.mem_cons_of_mem x hz)
      unfold insertEv
      split
      · refine List.Pairwise.cons ?_ (List.Pairwise.cons hx hxs)
        intro y hy
        rcases List.mem_cons.mp hy with h | h
        · have h2 : y.seq = x.seq := by rw [h]
          have h3 := hb x (List.mem_cons_self x xs)
          omega
        · have h3 := hb y (List.mem_cons_of_mem x h)
          omega
      · refine List.Pairwise.cons ?_ (ih hbx hxs)
        intro y hy
        rcases (mem_insertEv e y xs).mp hy with h | h
        · have h2 : y.seq = e.seq := by rw [h]
          have h3 := hb x (List.mem_cons_self x xs)
          omega
        · exact hx y h

theorem insertEv_seqBound {K : Type} {e : Event K} {l : List (Event K)}
    {c : Nat} (hb : SeqBound l c) (he : e.seq < c) :
    SeqBound (insertEv e l) c := by
  intro y hy
  rcases (mem_insertEv e y l).mp hy with h | h
  · subst h; exact he
  · exact hb y h

theorem insertEv_timeLB {K : Type} {e : Event K} {l : List (Event K)}
    {t : Int} (hb : TimeLB l t) (he : t ≤ e.time) :
    TimeLB (insertEv e l) t := by
  intro y hy
  rcases (mem_insertEv e y l).mp hy with h | h
  · subst h; exact he
  · exact hb y h

/-- C2 counterexample: calling `schedule` with the negative delay −5 on
a fresh bus is not rejected — the event is silently inserted into the
pending set with fire time −5 (the unclamped `0 + (−5)`) and the
insertion counter is bumped, exactly as for a valid delay. -/
theorem c2_counterexample :
    (CanBusBase.schedule (-5) () (CanBusBase.init Unit)).events =
      [{ time := -5, seq := 0, kind := () }] ∧
    (CanBusBase.schedule (-5) () (CanBusBase.init Unit)).counter = 1 := by
  constructor <;> rfl

/-- C2 (amended): `schedule` performs no validation of the delay: every
delay, negative ones included, is accepted — the pending set gains an
event with fire time exactly `time_us + delay` (never clamped) and the
counter is bumped; a negative delay therefore yields a pending event
strictly before the current clock. -/
theorem c2_no_delay_validation {K : Type} (s : CanBusBase K) (d : Int)
    (cb : K) :
    (CanBusBase.schedule d cb s).counter = s.counter + 1 ∧
    ({ time := s.time_us + d, seq := s.counter, kind := cb } : Event K) ∈
      (CanBusBase.schedule d cb s).events ∧
    (d < 0 → ∃ e ∈ (CanBusBase.schedule d cb s).events,
      e.time < s.time_us) := by
  refine ⟨rfl, self_mem_insertEv _ _, fun hd => ?_⟩
  refine ⟨{ time := s.time_us + d, seq := s.counter, kind := cb },
    self_mem_insertEv _ _, ?_⟩
  show s.time_us + d < s.time_us
  omega

/-- Witness for C2's amended theorem: delay −5 on a fresh bus leaves a
pending event strictly before the clock. -/
theorem c2_no_delay_validation_witness :
    ∃ e ∈ (CanBusBase.schedule (-5) () (CanBusBase.init Unit)).events,
      e.time < (CanBusBase.init Unit).time_us :=
  (c2_no_delay_validation (CanBusBase.init Unit) (-5) ()).2.2 (by decide)

/-- C10: `schedule` stamps the new event with the current counter value,
which is strictly greater than the sequence number of every pending
event, and bumps the counter; so pending events always have pairwise
distinct sequence numbers, hence pairwise distinct `(fireTime, seq)`
keys, and any two distinct pending events are strictly ordered by the
key alone — the pop order never needs to compare two callbacks. -/
theorem c10_fresh_sequence {K : Type} (s : CanBusBase K) (d : Int)
    (cb : K) (hb : SeqBound s.events s.counter)
    (hd : List.Pairwise (fun a b => a.seq ≠ b.seq) s.events) :
    (CanBusBase.schedule d cb s).counter = s.counter + 1 ∧
    ({ time := s.time_us + d, seq := s.counter, kind := cb } : Event K) ∈
      (CanBusBase.schedule d cb s).events ∧
    (∀ e ∈ s.events, e.seq < s.counter) ∧
    SeqBound (CanBusBase.schedule d cb s).events
      (CanBusBase.schedule d cb s).counter ∧
    List.Pairwise (fun a b => a.seq ≠ b.seq)
      (CanBusBase.schedule d cb s).events ∧
    List.Pairwise (fun a b : Event K =>
        Event.keyLT a b = true ∨ Event.keyLT b a = true)
      (CanBusBase.schedule d cb s).events := by
  have hpw : List.Pairwise (fun a b => a.seq ≠ b.seq)
      (CanBusBase.schedule d cb s).events :=
    insertEv_pairwise_ne hb rfl hd
  refine ⟨rfl, self_mem_insertEv _ _, hb, ?_, hpw, ?_⟩
  · exact insertEv_seqBound (fun e he => Nat.lt_succ_of_lt (hb e he))
      (Nat.lt_succ_self _)
  · exact hpw.imp (fun h => Event.keyLT_total h)

/-- Witness for C10 on a bus with one pending event and counter 1. -/
theorem c10_fresh_sequence_witness :
    (CanBusBase.schedule 7 ()
      (CanBusBase.schedule 3 () (CanBusBase.init Unit))).counter = 2 ∧
    SeqBound (CanBusBase.schedule 7 ()
        (CanBusBase.schedule 3 () (CanBusBase.init Unit))).events 2 := by
  have h := c10_fresh_sequence
    (CanBusBase.schedule 3 () (CanBusBase.init Unit)) 7 ()
    (by
      intro e he
      have h1 : e = { time := 3, seq := 0, kind := () } :=
        List.mem_singleton.mp he
      rw [h1]
      decide)
    (by
      show List.Pairwise (fun a b : Event Unit => a.seq ≠ b.seq)
        [({ time := 3, seq := 0, kind := () } : Event Unit)]
      exact List.pairwise_singleton _ _)
  exact ⟨h.1, h.2.2.2.1⟩

/-- One `heappop` together with the clock advance `self.time_us = t`
that both experiments' `execute` loops perform on the popped tuple. -/
def CanBusBase.popEvent {K : Type} (s : CanBusBase K) :
    Option (Event K × CanBusBase K) :=
  match s.events with
  | [] => none
  | e :: rest => some (e, { s with events := rest, time_us := e.time })

/-- An observable scheduler interaction: a `schedule` call or one
pop iteration of a run loop. -/
inductive SchedOp (K : Type) where
  | sched (delay : Int) (cb : K)
  | pop

/-- Apply one interaction to a scheduler state paired with the log of
popped events (the execution order so far); a pop on an empty pending
set does nothing, mirroring the loops' emptiness check. -/
def applySchedOp {K : Type} (p : CanBusBase K × List (Event K))
    (op : SchedOp K) : CanBusBase K × List (Event K) :=
  match op with
  | SchedOp.sched d cb => (CanBusBase.schedule d cb p.1, p.2)
  | SchedOp.pop =>
      match CanBusBase.popEvent p.1 with
      | none => p
      | some (e, s) => (s, p.2 ++ [e])

/-- Apply a sequence of scheduler interactions in order. -/
def applySchedOps {K : Type} (ops : List (SchedOp K))
    (p : CanBusBase K × List (Event K)) : CanBusBase K × List (Event K) :=
  ops.foldl applySchedOp p

theorem sublist_pair_insert {K : Type} {A B : Event K}
    {l : List (Event K)} (hAB : Event.keyLT A B = true) (hmem : A ∈ l)
    (hsort : SortedEv l) : [A, B].Sublist (insertEv B l) := by
  induction l with
  | nil => exact absurd hmem (List.not_mem_nil A)
  | cons x xs ih =>
      obtain ⟨hx, hxs⟩ := List.pairwise_cons.mp hsort
      unfold insertEv
      split
      · rcases List.mem_cons.mp hmem with h | h
        · have hBA : Event.keyLT B A = true := by
            have h2 : Event.keyLT B x = true := by assumption
            rw [← h] at h2
            exact h2
          rw [Event.keyLT_asymm hAB] at hBA
          exact absurd hBA (by simp)
        · have hBA : Event.keyLT B A = true :=
            Event.keyLT_trans (by assumption) (hx A h)
          rw [Event.keyLT_asymm hAB] at hBA
          exact absurd hBA (by simp)
      · rcases List.mem_cons.mp hmem with h | h
        · subst h
          exact List.Sublist.cons₂ A
            (List.singleton_sublist.mpr (self_mem_insertEv B xs))
        · exact List.Sublist.cons x (ih h hxs)
/-- The FIFO tie-break invariant: the pending set keeps fresh, pairwise
distinct sequence numbers, and B is still behind A in the pending set
and unpopped, or A has been popped and B is still pending, or both were
popped with A strictly earlier in the pop log. -/
def FifoInv {K : Type} (A B : Event K)
    (p : CanBusBase K × List (Event K)) : Prop :=
  B.seq < p.1.counter ∧ SeqBound p.1.events p.1.counter ∧
  List.Pairwise (fun a b => a.seq ≠ b.seq) p.1.events ∧
  (([A, B].Sublist p.1.events ∧ B ∉ p.2) ∨
   (A ∈ p.2 ∧ B ∈ p.1.events ∧ B ∉ p.2) ∨
   [A, B].Sublist p.2)

theorem fifoInv_step {K : Type} {A B : Event K}
    {p : CanBusBase K × List (Event K)} (hne : A ≠ B)
    (h : FifoInv A B p) (op : SchedOp K) :
    FifoInv A B (applySchedOp p op) := by
  obtain ⟨s, log⟩ := p
  obtain ⟨hseq, hb, hd, hcase⟩ := h
  cases op with
  | sched d cb =>
      refine ⟨Nat.lt_succ_of_lt hseq,
        insertEv_seqBound (fun e he => Nat.lt_succ_of_lt (hb e he))
          (Nat.lt_succ_self _),
        insertEv_pairwise_ne hb rfl hd, ?_⟩
      rcases hcase with ⟨h1, h2⟩ | ⟨h1, h2, h3⟩ | h1
      · exact Or.inl ⟨h1.trans (sublist_insertEv _ _), h2⟩
      · exact Or.inr (Or.inl ⟨h1, (mem_insertEv _ B _).mpr (Or.inr h2), h3⟩)
      · exact Or.inr (Or.inr h1)
  | pop =>
      rcases hev : s.events with _ | ⟨e, rest⟩
      · have happ : applySchedOp (s, log) SchedOp.pop = (s, log) := by
          unfold applySchedOp CanBusBase.popEvent
          rw [hev]
        rw [happ]
        exact ⟨hseq, hb, hd, hcase⟩
      · have happ : applySchedOp (s, log) SchedOp.pop =
            ({ s with events := rest, time_us := e.time }, log ++ [e]) := by
          unfold applySchedOp CanBusBase.popEvent
          rw [hev]
        rw [happ]
        rw [hev] at hb hd hcase
        obtain ⟨hdx, hdxs⟩ := List.pairwise_cons.mp hd
        refine ⟨hseq, fun z hz => hb z (List.mem_cons_of_mem e hz),
          hdxs, ?_⟩
        rcases hcase with ⟨h1, h2⟩ | ⟨h1, h2, h3⟩ | h1
        · cases h1 with
          | cons _ h4 =>
              have heB : e ≠ B := by
                intro hEq
                have hBmem : B ∈ rest := h4.subset
                  (List.mem_cons_of_mem A (List.mem_singleton.mpr rfl))
                exact hdx B hBmem (congrArg Event.seq hEq)
              refine Or.inl ⟨h4, ?_⟩
              intro hmem
              rcases List.mem_append.mp hmem with hm | hm
              · exact h2 hm
              · exact heB (List.mem_singleton.mp hm).symm
          | cons₂ _ h4 =>
              refine Or.inr (Or.inl ⟨List.mem_append.mpr
                (Or.inr (List.mem_singleton.mpr rfl)),
                List.singleton_sublist.mp h4, ?_⟩)
              intro hmem
              rcases List.mem_append.mp hmem with hm | hm
              · exact h2 hm
              · exact hne (List.mem_singleton.mp hm).symm
        · by_cases heB : e = B
          · refine Or.inr (Or.inr ?_)
            have hA : [A].Sublist log := List.singleton_sublist.mpr h1
            show [A, B].Sublist (log ++ [e])
            rw [heB]
            exact hA.append (List.Sublist.refl [B])
          · rcases List.mem_cons.mp h2 with hm | hm
            · exact absurd hm.symm heB
            · refine Or.inr (Or.inl ⟨List.mem_append.mpr (Or.inl h1), hm, ?_⟩)
              intro hmem
              rcases List.mem_append.mp hmem with hm2 | hm2
              · exact h3 hm2
              · exact heB (List.mem_singleton.mp hm2).symm
        · exact Or.inr (Or.inr (h1.trans (List.sublist_append_left log [e])))

theorem fifoInv_steps {K : Type} {A B : Event K}
    (hne : A ≠ B) (ops : List (SchedOp K))
    {p : CanBusBase K × List (Event K)} (h : FifoInv A B p) :
    FifoInv A B (applySchedOps ops p) := by
  induction ops generalizing p with
  | nil => exact h
  | cons op rest ih =>
      unfold applySchedOps
      rw [List.foldl_cons]
      exact ih (fifoInv_step hne h op)

/-- C5: when events A and B are scheduled, in that call order, with
equal resulting fire time, then under any further interleaving of
schedule calls and run-loop pops, B is never popped before A: whenever
B is in the pop log, A appears strictly earlier in it.  Since the run
loops execute each popped event's callback immediately, execution order
for equal fire times is strict FIFO by insertion order. -/
theorem c5_fifo_tie_break {K : Type} (s : CanBusBase K) (d : Int)
    (kA kB : K) (hsort : SortedEv s.events)
    (hb : SeqBound s.events s.counter)
    (hd : List.Pairwise (fun a b => a.seq ≠ b.seq) s.events)
    (ops : List (SchedOp K)) :
    ({ time := s.time_us + d, seq := s.counter + 1, kind := kB } : Event K) ∈
      (applySchedOps ops
        (CanBusBase.schedule d kB (CanBusBase.schedule d kA s), [])).2 →
    [({ time := s.time_us + d, seq := s.counter, kind := kA } : Event K),
      { time := s.time_us + d, seq := s.counter + 1, kind := kB }].Sublist
      (applySchedOps ops
        (CanBusBase.schedule d kB (CanBusBase.schedule d kA s), [])).2 := by
  intro hmem
  set A : Event K :=
    { time := s.time_us + d, seq := s.counter, kind := kA } with hAdef
  set B : Event K :=
    { time := s.time_us + d, seq := s.counter + 1, kind := kB } with hBdef
  have hne : A ≠ B := by
    intro hEq
    have h2 : s.counter = s.counter + 1 := congrArg Event.seq hEq
    omega
  have hAB : Event.keyLT A B = true := by
    rw [Event.keyLT_iff]
    exact Or.inr ⟨rfl, Nat.lt_succ_self _⟩
  have hbA : SeqBound (insertEv A s.events) (s.counter + 1) :=
    insertEv_seqBound (fun e he => Nat.lt_succ_of_lt (hb e he))
      (Nat.lt_succ_self _)
  have h0 : FifoInv A B
      (CanBusBase.schedule d kB (CanBusBase.schedule d kA s), []) := by
    refine ⟨Nat.lt_succ_self _, ?_, ?_, Or.inl ⟨?_, List.not_mem_nil B⟩⟩
    · exact insertEv_seqBound
        (fun e he => Nat.lt_succ_of_lt (hbA e he)) (Nat.lt_succ_self _)
    · exact insertEv_pairwise_ne hbA rfl (insertEv_pairwise_ne hb rfl hd)
    · exact sublist_pair_insert hAB (self_mem_insertEv A s.events)
        (insertEv_sorted hsort (fun x hx => Nat.ne_of_lt (hb x hx)))
  have hfin := fifoInv_steps hne ops h0
  rcases hfin.2.2.2 with ⟨h1, h2⟩ | ⟨h1, h2, h3⟩ | h1
  · exact absurd hmem h2
  · exact absurd hmem h3
  · exact h1

/-- Witness for C5: on a fresh bus, schedule A then B with delay 4 and
pop twice — the pop log lists A strictly before B. -/
theorem c5_fifo_tie_break_witness :
    [({ time := 4, seq := 0, kind := () } : Event Unit),
      { time := 4, seq := 1, kind := () }].Sublist
      (applySchedOps [SchedOp.pop, SchedOp.pop]
        (CanBusBase.schedule 4 ()
          (CanBusBase.schedule 4 () (CanBusBase.init Unit)), [])).2 :=
  c5_fifo_tie_break (CanBusBase.init Unit) 4 () ()
    List.Pairwise.nil (fun e he => absurd he (List.not_mem_nil e))
    List.Pairwise.nil [SchedOp.pop, SchedOp.pop] (by decide)

/-- `GAP_US` (utils.py): the defender's inter-frame gap, 31 µs. -/
def GAP_US : Int := 31

/-- `MAX_ROUNDS` (utils.py): the round limit, 3 in the source; the
spec treats the round limit as an injected scenario parameter, so the
experiment-1 model below takes it as the parameter `N` and the source
constant is this default. -/
def MAX_ROUNDS : Nat := 3

/-- `ASSISTANT_GAP_US` (utils.py): the assistant's message gap, 200 µs. -/
def ASSISTANT_GAP_US : Int := 200

/-- `ATTACKER_PERIOD_US` (utils.py): the attacker's spoof period, 1 s. -/
def ATTACKER_PERIOD_US : Int := 1000000

/-- The four callbacks of `experiment_1/simulate.py`, defunctionalised:
`__start_round`, `__handle_collision`, `__recover_defender`,
`__recover_attacker`. -/
inductive Ev1 where
  | startRound
  | handleCollision
  | recoverDefender
  | recoverAttacker
deriving DecidableEq, Repr

namespace Exp1

/-- `CanBus.__start_round`: bump the round counter; if it exceeds the
round limit, return without scheduling (the run then stops when the
pending set is empty); otherwise schedule an immediate collision. -/
def hStartRound (N : Nat) (s : CanBusBase Ev1) : CanBusBase Ev1 :=
  let s1 := { s with rounds := s.rounds + 1 }
  if s1.rounds > N then s1
  else CanBusBase.schedule 0 Ev1.handleCollision s1

/-- `CanBus.__handle_collision`: both nodes collide; while the attacker
is still ACTIVE another collision is scheduled after the gap, otherwise
defender recovery starts after the gap. -/
def hHandleCollision (s : CanBusBase Ev1) : CanBusBase Ev1 :=
  let s1 := { s with
    attacker := CanNode.collide s.attacker
    defender := CanNode.collide s.defender }
  if s1.attacker.state = ErrorStates.ACTIVE then
    CanBusBase.schedule GAP_US Ev1.handleCollision s1
  else
    CanBusBase.schedule GAP_US Ev1.recoverDefender s1

/-- `CanBus.__recover_defender`: the defender recovers once; repeat
after the gap until it is ACTIVE again, then attacker recovery starts
after the gap. -/
def hRecoverDefender (s : CanBusBase Ev1) : CanBusBase Ev1 :=
  let s1 := { s with defender := CanNode.succeed s.defender }
  if s1.defender.state ≠ ErrorStates.ACTIVE then
    CanBusBase.schedule GAP_US Ev1.recoverDefender s1
  else
    CanBusBase.schedule GAP_US Ev1.recoverAttacker s1

/-- `CanBus.__recover_attacker`: symmetric to defender recovery; once
the attacker is ACTIVE again the next round start is scheduled. -/
def hRecoverAttacker (s : CanBusBase Ev1) : CanBusBase Ev1 :=
  let s1 := { s with attacker := CanNode.succeed s.attacker }
  if s1.attacker.state ≠ ErrorStates.ACTIVE then
    CanBusBase.schedule GAP_US Ev1.recoverAttacker s1
  else
    CanBusBase.schedule GAP_US Ev1.startRound s1

/-- One iteration of `CanBus.execute`'s while loop: if events remain,
pop the minimal one, advance the clock to its fire time and run its
callback; on an empty pending set the loop has stopped, so the state is
returned unchanged. -/
def step (N : Nat) (s : CanBusBase Ev1) : CanBusBase Ev1 :=
  match s.events with
  | [] => s
  | e :: rest =>
      let s1 := { s with events := rest, time_us := e.time }
      match e.kind with
      | Ev1.startRound => hStartRound N s1
      | Ev1.handleCollision => hHandleCollision s1
      | Ev1.recoverDefender => hRecoverDefender s1
      | Ev1.recoverAttacker => hRecoverAttacker s1

/-- Run `k` loop iterations. -/
def run (N : Nat) : Nat → CanBusBase Ev1 → CanBusBase Ev1
  | 0, s => s
  | k + 1, s => run N k (step N s)

/-- The state `CanBus.execute` starts its loop from: a fresh bus with
the first `__start_round` scheduled at time 0. -/
def start : CanBusBase Ev1 :=
  CanBusBase.schedule 0 Ev1.startRound (CanBusBase.init Ev1)

end Exp1

/-- Shift an event's fire time by `δ` and its sequence number by `q`. -/
def shiftEv {K : Type} (δ : Int) (q : Nat) (e : Event K) : Event K :=
  { time := e.time + δ, seq := e.seq + q, kind := e.kind }

/-- Shift a bus state's clock, pending fire times and counter: the
scenario step functions are equivariant under this, which lets round
behaviour be computed once at clock 0 and transported. -/
def shiftBus {K : Type} (δ : Int) (q : Nat) (s : CanBusBase K) :
    CanBusBase K :=
  { s with
    time_us := s.time_us + δ
    events := s.events.map (shiftEv δ q)
    counter := s.counter + q }

theorem bool_eq_of_iff {a b : Bool} (h : a = true ↔ b = true) : a = b := by
  cases a <;> cases b <;> simp_all

theorem keyLT_shift {K : Type} (δ : Int) (q : Nat) (a b : Event K) :
    Event.keyLT (shiftEv δ q a) (shiftEv δ q b) = Event.keyLT a b := by
  refine bool_eq_of_iff ?_
  rw [Event.keyLT_iff, Event.keyLT_iff]
  simp only [shiftEv]
  omega

theorem insertEv_shift {K : Type} (δ : Int) (q : Nat) (e : Event K)
    (l : List (Event K)) :
    insertEv (shiftEv δ q e) (l.map (shiftEv δ q)) =
      (insertEv e l).map (shiftEv δ q) := by
  induction l with
  | nil => rfl
  | cons x xs ih =>
      simp only [List.map_cons, insertEv, keyLT_shift]
      split
      · simp
      · simp only [List.map_cons, ih]

theorem schedule_shift {K : Type} (d : Int) (cb : K) (δ : Int) (q : Nat)
    (s : CanBusBase K) :
    CanBusBase.schedule d cb (shiftBus δ q s) =
      shiftBus δ q (CanBusBase.schedule d cb s) := by
  obtain ⟨t, evs, c, r, a, dn⟩ := s
  unfold CanBusBase.schedule shiftBus
  simp only [CanBusBase.mk.injEq, eq_self_iff_true, and_true, true_and]
  have h1 : ({ time := t + δ + d, seq := c + q, kind := cb } :
      Event K) = shiftEv δ q { time := t + d, seq := c, kind := cb } := by
    simp only [shiftEv, Event.mk.injEq, eq_self_iff_true, and_true]
    ring
  refine ⟨?_, by omega⟩
  rw [h1]
  exact insertEv_shift δ q { time := t + d, seq := c, kind := cb } evs

theorem hStartRound_shift (N : Nat) (δ : Int) (q : Nat)
    (s : CanBusBase Ev1) :
    Exp1.hStartRound N (shiftBus δ q s) =
      shiftBus δ q (Exp1.hStartRound N s) := by
  obtain ⟨t, evs, c, r, a, dn⟩ := s
  unfold Exp1.hStartRound
  by_cases h : r + 1 > N
  · simp only [shiftBus, if_pos h]
  · simp only [shiftBus, if_neg h]
    exact schedule_shift 0 Ev1.handleCollision δ q ⟨t, evs, c, r + 1, a, dn⟩

theorem hHandleCollision_shift (δ : Int) (q : Nat) (s : CanBusBase Ev1) :
    Exp1.hHandleCollision (shiftBus δ q s) =
      shiftBus δ q (Exp1.hHandleCollision s) := by
  obtain ⟨t, evs, c, r, a, dn⟩ := s
  unfold Exp1.hHandleCollision
  by_cases h : (CanNode.collide a).state = ErrorStates.ACTIVE
  · simp only [shiftBus, if_pos h]
    exact schedule_shift GAP_US Ev1.handleCollision δ q
      ⟨t, evs, c, r, CanNode.collide a, CanNode.collide dn⟩
  · simp only [shiftBus, if_neg h]
    exact schedule_shift GAP_US Ev1.recoverDefender δ q
      ⟨t, evs, c, r, CanNode.collide a, CanNode.collide dn⟩

theorem hRecoverDefender_shift (δ : Int) (q : Nat) (s : CanBusBase Ev1) :
    Exp1.hRecoverDefender (shiftBus δ q s) =
      shiftBus δ q (Exp1.hRecoverDefender s) := by
  obtain ⟨t, evs, c, r, a, dn⟩ := s
  unfold Exp1.hRecoverDefender
  by_cases h : (CanNode.succeed dn).state ≠ ErrorStates.ACTIVE
  · simp only [shiftBus, if_pos h]
    exact schedule_shift GAP_US Ev1.recoverDefender δ q
      ⟨t, evs, c, r, a, CanNode.succeed dn⟩
  · simp only [shiftBus, if_neg h]
    exact schedule_shift GAP_US Ev1.recoverAttacker δ q
      ⟨t, evs, c, r, a, CanNode.succeed dn⟩

theorem hRecoverAttacker_shift (δ : Int) (q : Nat) (s : CanBusBase Ev1) :
    Exp1.hRecoverAttacker (shiftBus δ q s) =
      shiftBus δ q (Exp1.hRecoverAttacker s) := by
  obtain ⟨t, evs, c, r, a, dn⟩ := s
  unfold Exp1.hRecoverAttacker
  by_cases h : (CanNode.succeed a).state ≠ ErrorStates.ACTIVE
  · simp only [shiftBus, if_pos h]
    exact schedule_shift GAP_US Ev1.recoverAttacker δ q
      ⟨t, evs, c, r, CanNode.succeed a, dn⟩
  · simp only [shiftBus, if_neg h]
    exact schedule_shift GAP_US Ev1.startRound δ q
      ⟨t, evs, c, r, CanNode.succeed a, dn⟩

theorem step1_shift (N : Nat) (δ : Int) (q : Nat) (s : CanBusBase Ev1) :
    Exp1.step N (shiftBus δ q s) = shiftBus δ q (Exp1.step N s) := by
  obtain ⟨t, evs, c, r, a, dn⟩ := s
  rcases evs with _ | ⟨e, rest⟩
  · rfl
  · have hL : shiftBus δ q ⟨t, e :: rest, c, r, a, dn⟩ =
        ⟨t + δ, shiftEv δ q e :: rest.map (shiftEv δ q), c + q, r, a, dn⟩ := rfl
    rw [hL]
    have hmid : (⟨(shiftEv δ q e).time, rest.map (shiftEv δ q), c + q, r, a, dn⟩ :
        CanBusBase Ev1) = shiftBus δ q ⟨e.time, rest, c, r, a, dn⟩ := rfl
    rcases e with ⟨et, eq, ek⟩
    cases ek
    · show Exp1.hStartRound N _ = shiftBus δ q (Exp1.hStartRound N _)
      rw [← hStartRound_shift]
      rfl
    · show Exp1.hHandleCollision _ = shiftBus δ q (Exp1.hHandleCollision _)
      rw [← hHandleCollision_shift]
      rfl
    · show Exp1.hRecoverDefender _ = shiftBus δ q (Exp1.hRecoverDefender _)
      rw [← hRecoverDefender_shift]
      rfl
    · show Exp1.hRecoverAttacker _ = shiftBus δ q (Exp1.hRecoverAttacker _)
      rw [← hRecoverAttacker_shift]
      rfl

theorem run1_shift (N : Nat) (k : Nat) (δ : Int) (q : Nat)
    (s : CanBusBase Ev1) :
    Exp1.run N k (shiftBus δ q s) = shiftBus δ q (Exp1.run N k s) := by
  induction k generalizing s with
  | zero => rfl
  | succ m ih =>
      show Exp1.run N m (Exp1.step N (shiftBus δ q s)) = _
      rw [step1_shift, ih]
      rfl

theorem run1_add (N : Nat) (a b : Nat) (s : CanBusBase Ev1) :
    Exp1.run N (a + b) s = Exp1.run N b (Exp1.run N a s) := by
  induction a generalizing s with
  | zero =>
      rw [Nat.zero_add]
      rfl
  | succ m ih =>
      rw [show m + 1 + b = (m + b) + 1 from by omega]
      show Exp1.run N (m + b) (Exp1.step N s) = _
      rw [ih]
      rfl

/-- The canonical round-boundary state of experiment 1: at clock `t`,
the only pending event is the next `__start_round` at `t + 31` with
sequence number `q`, `r` rounds have completed, and both nodes sit at
counter 127, ACTIVE. -/
def RS1 (t : Int) (q : Nat) (r : Nat) : CanBusBase Ev1 :=
  { time_us := t
    events := [{ time := t + 31, seq := q, kind := Ev1.startRound }]
    counter := q + 1
    rounds := r
    attacker := { name := "[E] ATTACKER", TEC := 127, state := ErrorStates.ACTIVE }
    defender := { name := "[A] DEFENDER", TEC := 127, state := ErrorStates.ACTIVE } }

theorem hStartRound_eq (N : Nat) (t : Int) (evs : List (Event Ev1))
    (c : Nat) (r : Nat) (a dn : CanNode) :
    Exp1.hStartRound N ⟨t, evs, c, r, a, dn⟩ =
      if r + 1 > N then ⟨t, evs, c, r + 1, a, dn⟩
      else CanBusBase.schedule 0 Ev1.handleCollision ⟨t, evs, c, r + 1, a, dn⟩ :=
  rfl

theorem RS1_shift (δ : Int) (p : Nat) (t : Int) (q : Nat) (r : Nat) :
    shiftBus δ p (RS1 t q r) = RS1 (t + δ) (q + p) r := by
  unfold shiftBus RS1 shiftEv
  simp only [CanBusBase.mk.injEq, List.map_cons, List.map_nil,
    List.cons.injEq, Event.mk.injEq, eq_self_iff_true, and_true, true_and]
  omega

/-- Round 1 of experiment 1 takes 19 pops (start, 16 collisions, one
defender recovery, one attacker recovery) and ends at the canonical
round boundary with both counters at 127. -/
theorem exp1_first_round (N : Nat) (h : 1 ≤ N) :
    Exp1.run N 19 Exp1.start = RS1 527 19 1 := by
  show Exp1.run N 18 (Exp1.step N Exp1.start) = RS1 527 19 1
  rw [show Exp1.step N Exp1.start = Exp1.hStartRound N
      ⟨0, [], 1, 0, CanNode.init "[E] ATTACKER", CanNode.init "[A] DEFENDER"⟩
    from rfl]
  rw [hStartRound_eq, if_neg (by omega)]

  show Exp1.run N 17 (Exp1.step N
    (⟨0, [{ time := 0, seq := 1, kind := Ev1.handleCollision }], 2, 1,
      { name := "[E] ATTACKER", TEC := 0, state := ErrorStates.ACTIVE },
      { name := "[A] DEFENDER", TEC := 0, state := ErrorStates.ACTIVE }⟩ : CanBusBase Ev1)) = RS1 527 19 1
  rw [show Exp1.step N
    (⟨0, [{ time := 0, seq := 1, kind := Ev1.handleCollision }], 2, 1,
      { name := "[E] ATTACKER", TEC := 0, state := ErrorStates.ACTIVE },
      { name := "[A] DEFENDER", TEC := 0, state := ErrorStates.ACTIVE }⟩ : CanBusBase Ev1) =
    (⟨0, [{ time := 31, seq := 2, kind := Ev1.handleCollision }], 3, 1,
      { name := "[E] ATTACKER", TEC := 8, state := ErrorStates.ACTIVE },
      { name := "[A] DEFENDER", TEC := 8, state := ErrorStates.ACTIVE }⟩ : CanBusBase Ev1) from rfl]
  show Exp1.run N 16 (Exp1.step N
    (⟨0, [{ time := 31, seq := 2, kind := Ev1.handleCollision }], 3, 1,
      { name := "[E] ATTACKER", TEC := 8, state := ErrorStates.ACTIVE },
      { name := "[A] DEFENDER", TEC := 8, state := ErrorStates.ACTIVE }⟩ : CanBusBase Ev1)) = RS1 527 19 1
  rw [show Exp1.step N
    (⟨0, [{ time := 31, seq := 2, kind := Ev1.handleCollision }], 3, 1,
      { name := "[E] ATTACKER", TEC := 8, state := ErrorStates.ACTIVE },
      { name := "[A] DEFENDER", TEC := 8, state := ErrorStates.ACTIVE }⟩ : CanBusBase Ev1) =
    (⟨31, [{ time := 62, seq := 3, kind := Ev1.handleCollision }], 4, 1,
      { name := "[E] ATTACKER", TEC := 16, state := ErrorStates.ACTIVE },
      { name := "[A] DEFENDER", TEC := 16, state := ErrorStates.ACTIVE }⟩ : CanBusBase Ev1) from rfl]
  show Exp1.run N 15 (Exp1.step N
    (⟨31, [{ time := 62, seq := 3, kind := Ev1.handleCollision }], 4, 1,
      { name := "[E] ATTACKER", TEC := 16, state := ErrorStates.ACTIVE },
      { name := "[A] DEFENDER", TEC := 16, state := ErrorStates.ACTIVE }⟩ : CanBusBase Ev1)) = RS1 527 19 1
  rw [show Exp1.step N
    (⟨31, [{ time := 62, seq := 3, kind := Ev1.handleCollision }], 4, 1,
      { name := "[E] ATTACKER", TEC := 16, state := ErrorStates.ACTIVE },
      { name := "[A] DEFENDER", TEC := 16, state := ErrorStates.ACTIVE }⟩ : CanBusBase Ev1) =
    (⟨62, [{ time := 93, seq := 4, kind := Ev1.handleCollision }], 5, 1,
      { name := "[E] ATTACKER", TEC := 24, state := ErrorStates.ACTIVE },
      { name := "[A] DEFENDER", TEC := 24, state := ErrorStates.ACTIVE }⟩ : CanBusBase Ev1) from rfl]
  show Exp1.run N 14 (Exp1.step N
    (⟨62, [{ time := 93, seq := 4, kind := Ev1.handleCollision }], 5, 1,
      { name := "[E] ATTACKER", TEC := 24, state := ErrorStates.ACTIVE },
      { name := "[A] DEFENDER", TEC := 24, state := ErrorStates.ACTIVE }⟩ : CanBusBase Ev1)) = RS1 527 19 1
  rw [show Exp1.step N
    (⟨62, [{ time := 93, seq := 4, kind := Ev1.handleCollision }], 5, 1,
      { name := "[E] ATTACKER", TEC := 24, state := ErrorStates.ACTIVE },
      { name := "[A] DEFENDER", TEC := 24, state := ErrorStates.ACTIVE }⟩ : CanBusBase Ev1) =
    (⟨93, [{ time := 124, seq := 5, kind := Ev1.handleCollision }], 6, 1,
      { name := "[E] ATTACKER", TEC := 32, state := ErrorStates.ACTIVE },
      { name := "[A] DEFENDER", TEC := 32, state := ErrorStates.ACTIVE }⟩ : CanBusBase Ev1) from rfl]
  show Exp1.run N 13 (Exp1.step N
    (⟨93, [{ time := 124, seq := 5, kind := Ev1.handleCollision }], 6, 1,
      { name := "[E] ATTACKER", TEC := 32, state := ErrorStates.ACTIVE },
      { name := "[A] DEFENDER", TEC := 32, state := ErrorStates.ACTIVE }⟩ : CanBusBase Ev1)) = RS1 527 19 1
  rw [show Exp1.step N
    (⟨93, [{ time := 124, seq := 5, kind := Ev1.handleCollision }], 6, 1,
      { name := "[E] ATTACKER", TEC := 32, state := ErrorStates.ACTIVE },
      { name := "[A] DEFENDER", TEC := 32, state := ErrorStates.ACTIVE }⟩ : CanBusBase Ev1) =
    (⟨124, [{ time := 155, seq := 6, kind := Ev1.handleCollision }], 7, 1,
      { name := "[E] ATTACKER", TEC := 40, state := ErrorStates.ACTIVE },
      { name := "[A] DEFENDER", TEC := 40, state := ErrorStates.ACTIVE }⟩ : CanBusBase Ev1) from rfl]
  show Exp1.run N 12 (Exp1.step N
    (⟨124, [{ time := 155, seq := 6, kind := Ev1.handleCollision }], 7, 1,
      { name := "[E] ATTACKER", TEC := 40, state := ErrorStates.ACTIVE },
      { name := "[A] DEFENDER", TEC := 40, state := ErrorStates.ACTIVE }⟩ : CanBusBase Ev1)) = RS1 527 19 1
  rw [show Exp1.step N
    (⟨124, [{ time := 155, seq := 6, kind := Ev1.handleCollision }], 7, 1,
      { name := "[E] ATTACKER", TEC := 40, state := ErrorStates.ACTIVE },
      { name := "[A] DEFENDER", TEC := 40, state := ErrorStates.ACTIVE }⟩ : CanBusBase Ev1) =
    (⟨155, [{ time := 186, seq := 7, kind := Ev1.handleCollision }], 8, 1,
      { name := "[E] ATTACKER", TEC := 48, state := ErrorStates.ACTIVE },
      { name := "[A] DEFENDER", TEC := 48, state := ErrorStates.ACTIVE }⟩ : CanBusBase Ev1) from rfl]
  show Exp1.run N 11 (Exp1.step N
    (⟨155, [{ time := 186, seq := 7, kind := Ev1.handleCollision }], 8, 1,
      { name := "[E] ATTACKER", TEC := 48, state := ErrorStates.ACTIVE },
      { name := "[A] DEFENDER", TEC := 48, state := ErrorStates.ACTIVE }⟩ : CanBusBase Ev1)) = RS1 527 19 1
  rw [show Exp1.step N
    (⟨155, [{ time := 186, seq := 7, kind := Ev1.handleCollision }], 8, 1,
      { name := "[E] ATTACKER", TEC := 48, state := ErrorStates.ACTIVE },
      { name := "[A] DEFENDER", TEC := 48, state := ErrorStates.ACTIVE }⟩ : CanBusBase Ev1) =
    (⟨186, [{ time := 217, seq := 8, kind := Ev1.handleCollision }], 9, 1,
      { name := "[E] ATTACKER", TEC := 56, state := ErrorStates.ACTIVE },
      { name := "[A] DEFENDER", TEC := 56, state := ErrorStates.ACTIVE }⟩ : CanBusBase Ev1) from rfl]
  show Exp1.run N 10 (Exp1.step N
    (⟨186, [{ time := 217, seq := 8, kind := Ev1.handleCollision }], 9, 1,
      { name := "[E] ATTACKER", TEC := 56, state := ErrorStates.ACTIVE },
      { name := "[A] DEFENDER", TEC := 56, state := ErrorStates.ACTIVE }⟩ : CanBusBase Ev1)) = RS1 527 19 1
  rw [show Exp1.step N
    (⟨186, [{ time := 217, seq := 8, kind := Ev1.handleCollision }], 9, 1,
      { name := "[E] ATTACKER", TEC := 56, state := ErrorStates.ACTIVE },
      { name := "[A] DEFENDER", TEC := 56, state := ErrorStates.ACTIVE }⟩ : CanBusBase Ev1) =
    (⟨217, [{ time := 248, seq := 9, kind := Ev1.handleCollision }], 10, 1,
      { name := "[E] ATTACKER", TEC := 64, state := ErrorStates.ACTIVE },
      { name := "[A] DEFENDER", TEC := 64, state := ErrorStates.ACTIVE }⟩ : CanBusBase Ev1) from rfl]
  show Exp1.run N 9 (Exp1.step N
    (⟨217, [{ time := 248, seq := 9, kind := Ev1.handleCollision }], 10, 1,
      { name := "[E] ATTACKER", TEC := 64, state := ErrorStates.ACTIVE },
      { name := "[A] DEFENDER", TEC := 64, state := ErrorStates.ACTIVE }⟩ : CanBusBase Ev1)) = RS1 527 19 1
  rw [show Exp1.step N
    (⟨217, [{ time := 248, seq := 9, kind := Ev1.handleCollision }], 10, 1,
      { name := "[E] ATTACKER", TEC := 64, state := ErrorStates.ACTIVE },
      { name := "[A] DEFENDER", TEC := 64, state := ErrorStates.ACTIVE }⟩ : CanBusBase Ev1) =
    (⟨248, [{ time := 279, seq := 10, kind := Ev1.handleCollision }], 11, 1,
      { name := "[E] ATTACKER", TEC := 72, state := ErrorStates.ACTIVE },
      { name := "[A] DEFENDER", TEC := 72, state := ErrorStates.ACTIVE }⟩ : CanBusBase Ev1) from rfl]
  show Exp1.run N 8 (Exp1.step N
    (⟨248, [{ time := 279, seq := 10, kind := Ev1.handleCollision }], 11, 1,
      { name := "[E] ATTACKER", TEC := 72, state := ErrorStates.ACTIVE },
      { name := "[A] DEFENDER", TEC := 72, state := ErrorStates.ACTIVE }⟩ : CanBusBase Ev1)) = RS1 527 19 1
  rw [show Exp1.step N
    (⟨248, [{ time := 279, seq := 10, kind := Ev1.handleCollision }], 11, 1,
      { name := "[E] ATTACKER", TEC := 72, state := ErrorStates.ACTIVE },
      { name := "[A] DEFENDER", TEC := 72, state := ErrorStates.ACTIVE }⟩ : CanBusBase Ev1) =
    (⟨279, [{ time := 310, seq := 11, kind := Ev1.handleCollision }], 12, 1,
      { name := "[E] ATTACKER", TEC := 80, state := ErrorStates.ACTIVE },
      { name := "[A] DEFENDER", TEC := 80, state := ErrorStates.ACTIVE }⟩ : CanBusBase Ev1) from rfl]
  show Exp1.run N 7 (Exp1.step N
    (⟨279, [{ time := 310, seq := 11, kind := Ev1.handleCollision }], 12, 1,
      { name := "[E] ATTACKER", TEC := 80, state := ErrorStates.ACTIVE },
      { name := "[A] DEFENDER", TEC := 80, state := ErrorStates.ACTIVE }⟩ : CanBusBase Ev1)) = RS1 527 19 1
  rw [show Exp1.step N
    (⟨279, [{ time := 310, seq := 11, kind := Ev1.handleCollision }], 12, 1,
      { name := "[E] ATTACKER", TEC := 80, state := ErrorStates.ACTIVE },
      { name := "[A] DEFENDER", TEC := 80, state := ErrorStates.ACTIVE }⟩ : CanBusBase Ev1) =
    (⟨310, [{ time := 341, seq := 12, kind := Ev1.handleCollision }], 13, 1,
      { name := "[E] ATTACKER", TEC := 88, state := ErrorStates.ACTIVE },
      { name := "[A] DEFENDER", TEC := 88, state := ErrorStates.ACTIVE }⟩ : CanBusBase Ev1) from rfl]
  show Exp1.run N 6 (Exp1.step N
    (⟨310, [{ time := 341, seq := 12, kind := Ev1.handleCollision }], 13, 1,
      { name := "[E] ATTACKER", TEC := 88, state := ErrorStates.ACTIVE },
      { name := "[A] DEFENDER", TEC := 88, state := ErrorStates.ACTIVE }⟩ : CanBusBase Ev1)) = RS1 527 19 1
  rw [show Exp1.step N
    (⟨310, [{ time := 341, seq := 12, kind := Ev1.handleCollision }], 13, 1,
      { name := "[E] ATTACKER", TEC := 88, state := ErrorStates.ACTIVE },
      { name := "[A] DEFENDER", TEC := 88, state := ErrorStates.ACTIVE }⟩ : CanBusBase Ev1) =
    (⟨341, [{ time := 372, seq := 13, kind := Ev1.handleCollision }], 14, 1,
      { name := "[E] ATTACKER", TEC := 96, state := ErrorStates.ACTIVE },
      { name := "[A] DEFENDER", TEC := 96, state := ErrorStates.ACTIVE }⟩ : CanBusBase Ev1) from rfl]
  show Exp1.run N 5 (Exp1.step N
    (⟨341, [{ time := 372, seq := 13, kind := Ev1.handleCollision }], 14, 1,
      { name := "[E] ATTACKER", TEC := 96, state := ErrorStates.ACTIVE },
      { name := "[A] DEFENDER", TEC := 96, state := ErrorStates.ACTIVE }⟩ : CanBusBase Ev1)) = RS1 527 19 1
  rw [show Exp1.step N
    (⟨341, [{ time := 372, seq := 13, kind := Ev1.handleCollision }], 14, 1,
      { name := "[E] ATTACKER", TEC := 96, state := ErrorStates.ACTIVE },
      { name := "[A] DEFENDER", TEC := 96, state := ErrorStates.ACTIVE }⟩ : CanBusBase Ev1) =
    (⟨372, [{ time := 403, seq := 14, kind := Ev1.handleCollision }], 15, 1,
      { name := "[E] ATTACKER", TEC := 104, state := ErrorStates.ACTIVE },
      { name := "[A] DEFENDER", TEC := 104, state := ErrorStates.ACTIVE }⟩ : CanBusBase Ev1) from rfl]
  show Exp1.run N 4 (Exp1.step N
    (⟨372, [{ time := 403, seq := 14, kind := Ev1.handleCollision }], 15, 1,
      { name := "[E] ATTACKER", TEC := 104, state := ErrorStates.ACTIVE },
      { name := "[A] DEFENDER", TEC := 104, state := ErrorStates.ACTIVE }⟩ : CanBusBase Ev1)) = RS1 527 19 1
  rw [show Exp1.step N
    (⟨372, [{ time := 403, seq := 14, kind := Ev1.handleCollision }], 15, 1,
      { name := "[E] ATTACKER", TEC := 104, state := ErrorStates.ACTIVE },
      { name := "[A] DEFENDER", TEC := 104, state := ErrorStates.ACTIVE }⟩ : CanBusBase Ev1) =
    (⟨403, [{ time := 434, seq := 15, kind := Ev1.handleCollision }], 16, 1,
      { name := "[E] ATTACKER", TEC := 112, state := ErrorStates.ACTIVE },
      { name := "[A] DEFENDER", TEC := 112, state := ErrorStates.ACTIVE }⟩ : CanBusBase Ev1) from rfl]
  show Exp1.run N 3 (Exp1.step N
    (⟨403, [{ time := 434, seq := 15, kind := Ev1.handleCollision }], 16, 1,
      { name := "[E] ATTACKER", TEC := 112, state := ErrorStates.ACTIVE },
      { name := "[A] DEFENDER", TEC := 112, state := ErrorStates.ACTIVE }⟩ : CanBusBase Ev1)) = RS1 527 19 1
  rw [show Exp1.step N
    (⟨403, [{ time := 434, seq := 15, kind := Ev1.handleCollision }], 16, 1,
      { name := "[E] ATTACKER", TEC := 112, state := ErrorStates.ACTIVE },
      { name := "[A] DEFENDER", TEC := 112, state := ErrorStates.ACTIVE }⟩ : CanBusBase Ev1) =
    (⟨434, [{ time := 465, seq := 16, kind := Ev1.handleCollision }], 17, 1,
      { name := "[E] ATTACKER", TEC := 120, state := ErrorStates.ACTIVE },
      { name := "[A] DEFENDER", TEC := 120, state := ErrorStates.ACTIVE }⟩ : CanBusBase Ev1) from rfl]
  show Exp1.run N 2 (Exp1.step N
    (⟨434, [{ time := 465, seq := 16, kind := Ev1.handleCollision }], 17, 1,
      { name := "[E] ATTACKER", TEC := 120, state := ErrorStates.ACTIVE },
      { name := "[A] DEFENDER", TEC := 120, state := ErrorStates.ACTIVE }⟩ : CanBusBase Ev1)) = RS1 527 19 1
  rw [show Exp1.step N
    (⟨434, [{ time := 465, seq := 16, kind := Ev1.handleCollision }], 17, 1,
      { name := "[E] ATTACKER", TEC := 120, state := ErrorStates.ACTIVE },
      { name := "[A] DEFENDER", TEC := 120, state := ErrorStates.ACTIVE }⟩ : CanBusBase Ev1) =
    (⟨465, [{ time := 496, seq := 17, kind := Ev1.recoverDefender }], 18, 1,
      { name := "[E] ATTACKER", TEC := 128, state := ErrorStates.ERROR_PASSIVE },
      { name := "[A] DEFENDER", TEC := 128, state := ErrorStates.ERROR_PASSIVE }⟩ : CanBusBase Ev1) from rfl]
  show Exp1.run N 1 (Exp1.step N
    (⟨465, [{ time := 496, seq := 17, kind := Ev1.recoverDefender }], 18, 1,
      { name := "[E] ATTACKER", TEC := 128, state := ErrorStates.ERROR_PASSIVE },
      { name := "[A] DEFENDER", TEC := 128, state := ErrorStates.ERROR_PASSIVE }⟩ : CanBusBase Ev1)) = RS1 527 19 1
  rw [show Exp1.step N
    (⟨465, [{ time := 496, seq := 17, kind := Ev1.recoverDefender }], 18, 1,
      { name := "[E] ATTACKER", TEC := 128, state := ErrorStates.ERROR_PASSIVE },
      { name := "[A] DEFENDER", TEC := 128, state := ErrorStates.ERROR_PASSIVE }⟩ : CanBusBase Ev1) =
    (⟨496, [{ time := 527, seq := 18, kind := Ev1.recoverAttacker }], 19, 1,
      { name := "[E] ATTACKER", TEC := 128, state := ErrorStates.ERROR_PASSIVE },
      { name := "[A] DEFENDER", TEC := 127, state := ErrorStates.ACTIVE }⟩ : CanBusBase Ev1) from rfl]
  show Exp1.run N 0 (Exp1.step N
    (⟨496, [{ time := 527, seq := 18, kind := Ev1.recoverAttacker }], 19, 1,
      { name := "[E] ATTACKER", TEC := 128, state := ErrorStates.ERROR_PASSIVE },
      { name := "[A] DEFENDER", TEC := 127, state := ErrorStates.ACTIVE }⟩ : CanBusBase Ev1)) = RS1 527 19 1
  rw [show Exp1.step N
    (⟨496, [{ time := 527, seq := 18, kind := Ev1.recoverAttacker }], 19, 1,
      { name := "[E] ATTACKER", TEC := 128, state := ErrorStates.ERROR_PASSIVE },
      { name := "[A] DEFENDER", TEC := 127, state := ErrorStates.ACTIVE }⟩ : CanBusBase Ev1) =
    (⟨527, [{ time := 558, seq := 19, kind := Ev1.startRound }], 20, 1,
      { name := "[E] ATTACKER", TEC := 127, state := ErrorStates.ACTIVE },
      { name := "[A] DEFENDER", TEC := 127, state := ErrorStates.ACTIVE }⟩ : CanBusBase Ev1) from rfl]
  rfl

/-- A steady round of experiment 1 takes 18 pops (start, 1 collision,
8 defender recoveries, 8 attacker recoveries), advances the clock by
527 µs and the counter by 18, and returns to the round boundary. -/
theorem exp1_steady_round_z (N r : Nat) (h : r + 1 ≤ N) :
    Exp1.run N 18 (RS1 0 0 r) = RS1 527 18 (r + 1) := by
  show Exp1.run N 17 (Exp1.step N (RS1 0 0 r)) = RS1 527 18 (r + 1)
  rw [show Exp1.step N (RS1 0 0 r) = Exp1.hStartRound N
      ⟨31, [], 1, r,
        { name := "[E] ATTACKER", TEC := 127, state := ErrorStates.ACTIVE },
        { name := "[A] DEFENDER", TEC := 127, state := ErrorStates.ACTIVE }⟩
    from rfl]
  rw [hStartRound_eq, if_neg (by omega)]

  show Exp1.run N 16 (Exp1.step N
    (⟨31, [{ time := 31, seq := 1, kind := Ev1.handleCollision }], 2, r + 1,
      { name := "[E] ATTACKER", TEC := 127, state := ErrorStates.ACTIVE },
      { name := "[A] DEFENDER", TEC := 127, state := ErrorStates.ACTIVE }⟩ : CanBusBase Ev1)) = RS1 527 18 (r + 1)
  rw [show Exp1.step N
    (⟨31, [{ time := 31, seq := 1, kind := Ev1.handleCollision }], 2, r + 1,
      { name := "[E] ATTACKER", TEC := 127, state := ErrorStates.ACTIVE },
      { name := "[A] DEFENDER", TEC := 127, state := ErrorStates.ACTIVE }⟩ : CanBusBase Ev1) =
    (⟨31, [{ time := 62, seq := 2, kind := Ev1.recoverDefender }], 3, r + 1,
      { name := "[E] ATTACKER", TEC := 135, state := ErrorStates.ERROR_PASSIVE },
      { name := "[A] DEFENDER", TEC := 135, state := ErrorStates.ERROR_PASSIVE }⟩ : CanBusBase Ev1) from rfl]
  show Exp1.run N 15 (Exp1.step N
    (⟨31, [{ time := 62, seq := 2, kind := Ev1.recoverDefender }], 3, r + 1,
      { name := "[E] ATTACKER", TEC := 135, state := ErrorStates.ERROR_PASSIVE },
      { name := "[A] DEFENDER", TEC := 135, state := ErrorStates.ERROR_PASSIVE }⟩ : CanBusBase Ev1)) = RS1 527 18 (r + 1)
  rw [show Exp1.step N
    (⟨31, [{ time := 62, seq := 2, kind := Ev1.recoverDefender }], 3, r + 1,
      { name := "[E] ATTACKER", TEC := 135, state := ErrorStates.ERROR_PASSIVE },
      { name := "[A] DEFENDER", TEC := 135, state := ErrorStates.ERROR_PASSIVE }⟩ : CanBusBase Ev1) =
    (⟨62, [{ time := 93, seq := 3, kind := Ev1.recoverDefender }], 4, r + 1,
      { name := "[E] ATTACKER", TEC := 135, state := ErrorStates.ERROR_PASSIVE },
      { name := "[A] DEFENDER", TEC := 134, state := ErrorStates.ERROR_PASSIVE }⟩ : CanBusBase Ev1) from rfl]
  show Exp1.run N 14 (Exp1.step N
    (⟨62, [{ time := 93, seq := 3, kind := Ev1.recoverDefender }], 4, r + 1,
      { name := "[E] ATTACKER", TEC := 135, state := ErrorStates.ERROR_PASSIVE },
      { name := "[A] DEFENDER", TEC := 134, state := ErrorStates.ERROR_PASSIVE }⟩ : CanBusBase Ev1)) = RS1 527 18 (r + 1)
  rw [show Exp1.step N
    (⟨62, [{ time := 93, seq := 3, kind := Ev1.recoverDefender }], 4, r + 1,
      { name := "[E] ATTACKER", TEC := 135, state := ErrorStates.ERROR_PASSIVE },
      { name := "[A] DEFENDER", TEC := 134, state := ErrorStates.ERROR_PASSIVE }⟩ : CanBusBase Ev1) =
    (⟨93, [{ time := 124, seq := 4, kind := Ev1.recoverDefender }], 5, r + 1,
      { name := "[E] ATTACKER", TEC := 135, state := ErrorStates.ERROR_PASSIVE },
      { name := "[A] DEFENDER", TEC := 133, state := ErrorStates.ERROR_PASSIVE }⟩ : CanBusBase Ev1) from rfl]
  show Exp1.run N 13 (Exp1.step N
    (⟨93, [{ time := 124, seq := 4, kind := Ev1.recoverDefender }], 5, r + 1,
      { name := "[E] ATTACKER", TEC := 135, state := ErrorStates.ERROR_PASSIVE },
      { name := "[A] DEFENDER", TEC := 133, state := ErrorStates.ERROR_PASSIVE }⟩ : CanBusBase Ev1)) = RS1 527 18 (r + 1)
  rw [show Exp1.step N
    (⟨93, [{ time := 124, seq := 4, kind := Ev1.recoverDefender }], 5, r + 1,
      { name := "[E] ATTACKER", TEC := 135, state := ErrorStates.ERROR_PASSIVE },
      { name := "[A] DEFENDER", TEC := 133, state := ErrorStates.ERROR_PASSIVE }⟩ : CanBusBase Ev1) =
    (⟨124, [{ time := 155, seq := 5, kind := Ev1.recoverDefender }], 6, r + 1,
      { name := "[E] ATTACKER", TEC := 135, state := ErrorStates.ERROR_PASSIVE },
      { name := "[A] DEFENDER", TEC := 132, state := ErrorStates.ERROR_PASSIVE }⟩ : CanBusBase Ev1) from rfl]
  show Exp1.run N 12 (Exp1.step N
    (⟨124, [{ time := 155, seq := 5, kind := Ev1.recoverDefender }], 6, r + 1,
      { name := "[E] ATTACKER", TEC := 135, state := ErrorStates.ERROR_PASSIVE },
      { name := "[A] DEFENDER", TEC := 132, state := ErrorStates.ERROR_PASSIVE }⟩ : CanBusBase Ev1)) = RS1 527 18 (r + 1)
  rw [show Exp1.step N
    (⟨124, [{ time := 155, seq := 5, kind := Ev1.recoverDefender }], 6, r + 1,
      { name := "[E] ATTACKER", TEC := 135, state := ErrorStates.ERROR_PASSIVE },
      { name := "[A] DEFENDER", TEC := 132, state := ErrorStates.ERROR_PASSIVE }⟩ : CanBusBase Ev1) =
    (⟨155, [{ time := 186, seq := 6, kind := Ev1.recoverDefender }], 7, r + 1,
      { name := "[E] ATTACKER", TEC := 135, state := ErrorStates.ERROR_PASSIVE },
      { name := "[A] DEFENDER", TEC := 131, state := ErrorStates.ERROR_PASSIVE }⟩ : CanBusBase Ev1) from rfl]
  show Exp1.run N 11 (Exp1.step N
    (⟨155, [{ time := 186, seq := 6, kind := Ev1.recoverDefender }], 7, r + 1,
      { name := "[E] ATTACKER", TEC := 135, state := ErrorStates.ERROR_PASSIVE },
      { name := "[A] DEFENDER", TEC := 131, state := ErrorStates.ERROR_PASSIVE }⟩ : CanBusBase Ev1)) = RS1 527 18 (r + 1)
  rw [show Exp1.step N
    (⟨155, [{ time := 186, seq := 6, kind := Ev1.recoverDefender }], 7, r + 1,
      { name := "[E] ATTACKER", TEC := 135, state := ErrorStates.ERROR_PASSIVE },
      { name := "[A] DEFENDER", TEC := 131, state := ErrorStates.ERROR_PASSIVE }⟩ : CanBusBase Ev1) =
    (⟨186, [{ time := 217, seq := 7, kind := Ev1.recoverDefender }], 8, r + 1,
      { name := "[E] ATTACKER", TEC := 135, state := ErrorStates.ERROR_PASSIVE },
      { name := "[A] DEFENDER", TEC := 130, state := ErrorStates.ERROR_PASSIVE }⟩ : CanBusBase Ev1) from rfl]
  show Exp1.run N 10 (Exp1.step N
    (⟨186, [{ time := 217, seq := 7, kind := Ev1.recoverDefender }], 8, r + 1,
      { name := "[E] ATTACKER", TEC := 135, state := ErrorStates.ERROR_PASSIVE },
      { name := "[A] DEFENDER", TEC := 130, state := ErrorStates.ERROR_PASSIVE }⟩ : CanBusBase Ev1)) = RS1 527 18 (r + 1)
  rw [show Exp1.step N
    (⟨186, [{ time := 217, seq := 7, kind := Ev1.recoverDefender }], 8, r + 1,
      { name := "[E] ATTACKER", TEC := 135, state := ErrorStates.ERROR_PASSIVE },
      { name := "[A] DEFENDER", TEC := 130, state := ErrorStates.ERROR_PASSIVE }⟩ : CanBusBase Ev1) =
    (⟨217, [{ time := 248, seq := 8, kind := Ev1.recoverDefender }], 9, r + 1,
      { name := "[E] ATTACKER", TEC := 135, state := ErrorStates.ERROR_PASSIVE },
      { name := "[A] DEFENDER", TEC := 129, state := ErrorStates.ERROR_PASSIVE }⟩ : CanBusBase Ev1) from rfl]
  show Exp1.run N 9 (Exp1.step N
    (⟨217, [{ time := 248, seq := 8, kind := Ev1.recoverDefender }], 9, r + 1,
      { name := "[E] ATTACKER", TEC := 135, state := ErrorStates.ERROR_PASSIVE },
      { name := "[A] DEFENDER", TEC := 129, state := ErrorStates.ERROR_PASSIVE }⟩ : CanBusBase Ev1)) = RS1 527 18 (r + 1)
  rw [show Exp1.step N
    (⟨217, [{ time := 248, seq := 8, kind := Ev1.recoverDefender }], 9, r + 1,
      { name := "[E] ATTACKER", TEC := 135, state := ErrorStates.ERROR_PASSIVE },
      { name := "[A] DEFENDER", TEC := 129, state := ErrorStates.ERROR_PASSIVE }⟩ : CanBusBase Ev1) =
    (⟨248, [{ time := 279, seq := 9, kind := Ev1.recoverDefender }], 10, r + 1,
      { name := "[E] ATTACKER", TEC := 135, state := ErrorStates.ERROR_PASSIVE },
      { name := "[A] DEFENDER", TEC := 128, state := ErrorStates.ERROR_PASSIVE }⟩ : CanBusBase Ev1) from rfl]
  show Exp1.run N 8 (Exp1.step N
    (⟨248, [{ time := 279, seq := 9, kind := Ev1.recoverDefender }], 10, r + 1,
      { name := "[E] ATTACKER", TEC := 135, state := ErrorStates.ERROR_PASSIVE },
      { name := "[A] DEFENDER", TEC := 128, state := ErrorStates.ERROR_PASSIVE }⟩ : CanBusBase Ev1)) = RS1 527 18 (r + 1)
  rw [show Exp1.step N
    (⟨248, [{ time := 279, seq := 9, kind := Ev1.recoverDefender }], 10, r + 1,
      { name := "[E] ATTACKER", TEC := 135, state := ErrorStates.ERROR_PASSIVE },
      { name := "[A] DEFENDER", TEC := 128, state := ErrorStates.ERROR_PASSIVE }⟩ : CanBusBase Ev1) =
    (⟨279, [{ time := 310, seq := 10, kind := Ev1.recoverAttacker }], 11, r + 1,
      { name := "[E] ATTACKER", TEC := 135, state := ErrorStates.ERROR_PASSIVE },
      { name := "[A] DEFENDER", TEC := 127, state := ErrorStates.ACTIVE }⟩ : CanBusBase Ev1) from rfl]
  show Exp1.run N 7 (Exp1.step N
    (⟨279, [{ time := 310, seq := 10, kind := Ev1.recoverAttacker }], 11, r + 1,
      { name := "[E] ATTACKER", TEC := 135, state := ErrorStates.ERROR_PASSIVE },
      { name := "[A] DEFENDER", TEC := 127, state := ErrorStates.ACTIVE }⟩ : CanBusBase Ev1)) = RS1 527 18 (r + 1)
  rw [show Exp1.step N
    (⟨279, [{ time := 310, seq := 10, kind := Ev1.recoverAttacker }], 11, r + 1,
      { name := "[E] ATTACKER", TEC := 135, state := ErrorStates.ERROR_PASSIVE },
      { name := "[A] DEFENDER", TEC := 127, state := ErrorStates.ACTIVE }⟩ : CanBusBase Ev1) =
    (⟨310, [{ time := 341, seq := 11, kind := Ev1.recoverAttacker }], 12, r + 1,
      { name := "[E] ATTACKER", TEC := 134, state := ErrorStates.ERROR_PASSIVE },
      { name := "[A] DEFENDER", TEC := 127, state := ErrorStates.ACTIVE }⟩ : CanBusBase Ev1) from rfl]
  show Exp1.run N 6 (Exp1.step N
    (⟨310, [{ time := 341, seq := 11, kind := Ev1.recoverAttacker }], 12, r + 1,
      { name := "[E] ATTACKER", TEC := 134, state := ErrorStates.ERROR_PASSIVE },
      { name := "[A] DEFENDER", TEC := 127, state := ErrorStates.ACTIVE }⟩ : CanBusBase Ev1)) = RS1 527 18 (r + 1)
  rw [show Exp1.step N
    (⟨310, [{ time := 341, seq := 11, kind := Ev1.recoverAttacker }], 12, r + 1,
      { name := "[E] ATTACKER", TEC := 134, state := ErrorStates.ERROR_PASSIVE },
      { name := "[A] DEFENDER", TEC := 127, state := ErrorStates.ACTIVE }⟩ : CanBusBase Ev1) =
    (⟨341, [{ time := 372, seq := 12, kind := Ev1.recoverAttacker }], 13, r + 1,
      { name := "[E] ATTACKER", TEC := 133, state := ErrorStates.ERROR_PASSIVE },
      { name := "[A] DEFENDER", TEC := 127, state := ErrorStates.ACTIVE }⟩ : CanBusBase Ev1) from rfl]
  show Exp1.run N 5 (Exp1.step N
    (⟨341, [{ time := 372, seq := 12, kind := Ev1.recoverAttacker }], 13, r + 1,
      { name := "[E] ATTACKER", TEC := 133, state := ErrorStates.ERROR_PASSIVE },
      { name := "[A] DEFENDER", TEC := 127, state := ErrorStates.ACTIVE }⟩ : CanBusBase Ev1)) = RS1 527 18 (r + 1)
  rw [show Exp1.step N
    (⟨341, [{ time := 372, seq := 12, kind := Ev1.recoverAttacker }], 13, r + 1,
      { name := "[E] ATTACKER", TEC := 133, state := ErrorStates.ERROR_PASSIVE },
      { name := "[A] DEFENDER", TEC := 127, state := ErrorStates.ACTIVE }⟩ : CanBusBase Ev1) =
    (⟨372, [{ time := 403, seq := 13, kind := Ev1.recoverAttacker }], 14, r + 1,
      { name := "[E] ATTACKER", TEC := 132, state := ErrorStates.ERROR_PASSIVE },
      { name := "[A] DEFENDER", TEC := 127, state := ErrorStates.ACTIVE }⟩ : CanBusBase Ev1) from rfl]
  show Exp1.run N 4 (Exp1.step N
    (⟨372, [{ time := 403, seq := 13, kind := Ev1.recoverAttacker }], 14, r + 1,
      { name := "[E] ATTACKER", TEC := 132, state := ErrorStates.ERROR_PASSIVE },
      { name := "[A] DEFENDER", TEC := 127, state := ErrorStates.ACTIVE }⟩ : CanBusBase Ev1)) = RS1 527 18 (r + 1)
  rw [show Exp1.step N
    (⟨372, [{ time := 403, seq := 13, kind := Ev1.recoverAttacker }], 14, r + 1,
      { name := "[E] ATTACKER", TEC := 132, state := ErrorStates.ERROR_PASSIVE },
      { name := "[A] DEFENDER", TEC := 127, state := ErrorStates.ACTIVE }⟩ : CanBusBase Ev1) =
    (⟨403, [{ time := 434, seq := 14, kind := Ev1.recoverAttacker }], 15, r + 1,
      { name := "[E] ATTACKER", TEC := 131, state := ErrorStates.ERROR_PASSIVE },
      { name := "[A] DEFENDER", TEC := 127, state := ErrorStates.ACTIVE }⟩ : CanBusBase Ev1) from rfl]
  show Exp1.run N 3 (Exp1.step N
    (⟨403, [{ time := 434, seq := 14, kind := Ev1.recoverAttacker }], 15, r + 1,
      { name := "[E] ATTACKER", TEC := 131, state := ErrorStates.ERROR_PASSIVE },
      { name := "[A] DEFENDER", TEC := 127, state := ErrorStates.ACTIVE }⟩ : CanBusBase Ev1)) = RS1 527 18 (r + 1)
  rw [show Exp1.step N
    (⟨403, [{ time := 434, seq := 14, kind := Ev1.recoverAttacker }], 15, r + 1,
      { name := "[E] ATTACKER", TEC := 131, state := ErrorStates.ERROR_PASSIVE },
      { name := "[A] DEFENDER", TEC := 127, state := ErrorStates.ACTIVE }⟩ : CanBusBase Ev1) =
    (⟨434, [{ time := 465, seq := 15, kind := Ev1.recoverAttacker }], 16, r + 1,
      { name := "[E] ATTACKER", TEC := 130, state := ErrorStates.ERROR_PASSIVE },
      { name := "[A] DEFENDER", TEC := 127, state := ErrorStates.ACTIVE }⟩ : CanBusBase Ev1) from rfl]
  show Exp1.run N 2 (Exp1.step N
    (⟨434, [{ time := 465, seq := 15, kind := Ev1.recoverAttacker }], 16, r + 1,
      { name := "[E] ATTACKER", TEC := 130, state := ErrorStates.ERROR_PASSIVE },
      { name := "[A] DEFENDER", TEC := 127, state := ErrorStates.ACTIVE }⟩ : CanBusBase Ev1)) = RS1 527 18 (r + 1)
  rw [show Exp1.step N
    (⟨434, [{ time := 465, seq := 15, kind := Ev1.recoverAttacker }], 16, r + 1,
      { name := "[E] ATTACKER", TEC := 130, state := ErrorStates.ERROR_PASSIVE },
      { name := "[A] DEFENDER", TEC := 127, state := ErrorStates.ACTIVE }⟩ : CanBusBase Ev1) =
    (⟨465, [{ time := 496, seq := 16, kind := Ev1.recoverAttacker }], 17, r + 1,
      { name := "[E] ATTACKER", TEC := 129, state := ErrorStates.ERROR_PASSIVE },
      { name := "[A] DEFENDER", TEC := 127, state := ErrorStates.ACTIVE }⟩ : CanBusBase Ev1) from rfl]
  show Exp1.run N 1 (Exp1.step N
    (⟨465, [{ time := 496, seq := 16, kind := Ev1.recoverAttacker }], 17, r + 1,
      { name := "[E] ATTACKER", TEC := 129, state := ErrorStates.ERROR_PASSIVE },
      { name := "[A] DEFENDER", TEC := 127, state := ErrorStates.ACTIVE }⟩ : CanBusBase Ev1)) = RS1 527 18 (r + 1)
  rw [show Exp1.step N
    (⟨465, [{ time := 496, seq := 16, kind := Ev1.recoverAttacker }], 17, r + 1,
      { name := "[E] ATTACKER", TEC := 129, state := ErrorStates.ERROR_PASSIVE },
      { name := "[A] DEFENDER", TEC := 127, state := ErrorStates.ACTIVE }⟩ : CanBusBase Ev1) =
    (⟨496, [{ time := 527, seq := 17, kind := Ev1.recoverAttacker }], 18, r + 1,
      { name := "[E] ATTACKER", TEC := 128, state := ErrorStates.ERROR_PASSIVE },
      { name := "[A] DEFENDER", TEC := 127, state := ErrorStates.ACTIVE }⟩ : CanBusBase Ev1) from rfl]
  show Exp1.run N 0 (Exp1.step N
    (⟨496, [{ time := 527, seq := 17, kind := Ev1.recoverAttacker }], 18, r + 1,
      { name := "[E] ATTACKER", TEC := 128, state := ErrorStates.ERROR_PASSIVE },
      { name := "[A] DEFENDER", TEC := 127, state := ErrorStates.ACTIVE }⟩ : CanBusBase Ev1)) = RS1 527 18 (r + 1)
  rw [show Exp1.step N
    (⟨496, [{ time := 527, seq := 17, kind := Ev1.recoverAttacker }], 18, r + 1,
      { name := "[E] ATTACKER", TEC := 128, state := ErrorStates.ERROR_PASSIVE },
      { name := "[A] DEFENDER", TEC := 127, state := ErrorStates.ACTIVE }⟩ : CanBusBase Ev1) =
    (⟨527, [{ time := 558, seq := 18, kind := Ev1.startRound }], 19, r + 1,
      { name := "[E] ATTACKER", TEC := 127, state := ErrorStates.ACTIVE },
      { name := "[A] DEFENDER", TEC := 127, state := ErrorStates.ACTIVE }⟩ : CanBusBase Ev1) from rfl]
  rfl

theorem exp1_steady_round (N r : Nat) (t : Int) (q : Nat)
    (h : r + 1 ≤ N) :
    Exp1.run N 18 (RS1 t q r) = RS1 (t + 527) (q + 18) (r + 1) := by
  have hs : RS1 t q r = shiftBus t q (RS1 0 0 r) := by
    rw [RS1_shift]
    norm_num
  rw [hs, run1_shift, exp1_steady_round_z N r h, RS1_shift,
    Int.add_comm 527 t, Nat.add_comm 18 q]

/-- Popping the final `__start_round` (round counter already at the
limit) bumps the round counter past the limit and schedules nothing,
leaving the pending set empty, so the loop exits. -/
theorem exp1_last (N : Nat) (t : Int) (q : Nat) :
    Exp1.run N 1 (RS1 t q N) =
      ⟨t + 31, [], q + 1, N + 1,
        { name := "[E] ATTACKER", TEC := 127, state := ErrorStates.ACTIVE },
        { name := "[A] DEFENDER", TEC := 127, state := ErrorStates.ACTIVE }⟩ := by
  show Exp1.step N (RS1 t q N) = _
  rw [show Exp1.step N (RS1 t q N) = Exp1.hStartRound N
      ⟨t + 31, [], q + 1, N,
        { name := "[E] ATTACKER", TEC := 127, state := ErrorStates.ACTIVE },
        { name := "[A] DEFENDER", TEC := 127, state := ErrorStates.ACTIVE }⟩
    from rfl]
  rw [hStartRound_eq, if_pos (by omega)]

theorem exp1_rounds (N j : Nat) (t : Int) (q r : Nat) (h : r + j ≤ N) :
    Exp1.run N (18 * j) (RS1 t q r) =
      RS1 (t + 527 * j) (q + 18 * j) (r + j) := by
  induction j generalizing t q r with
  | zero =>
      show RS1 t q r = RS1 (t + 527 * 0) (q + 18 * 0) (r + 0)
      norm_num
  | succ m ih =>
      rw [show 18 * (m + 1) = 18 + 18 * m from by ring, run1_add,
        exp1_steady_round N r t q (by omega),
        ih (t + 527) (q + 18) (r + 1) (by omega),
        show t + 527 + 527 * (m : Int) = t + 527 * ((m + 1 : Nat) : Int) from by
          push_cast
          ring,
        show q + 18 + 18 * m = q + 18 * (m + 1) from by ring,
        show r + 1 + m = r + (m + 1) from by ring,
        show 18 + 18 * m = 18 * (m + 1) from by ring]

theorem stateOfTEC_ACTIVE_iff (x : Int) :
    stateOfTEC x = ErrorStates.ACTIVE ↔ x < 128 := by
  unfold stateOfTEC
  split
  · simp
    omega
  · split
    · simp
      omega
    · simp
      omega

theorem stateOfTEC_BUS_OFF_iff (x : Int) :
    stateOfTEC x = ErrorStates.BUS_OFF ↔ 256 ≤ x := by
  unfold stateOfTEC
  split
  · simp
    omega
  · split
    · simp
      omega
    · simp
      omega

/-- Stored-state/counter consistency: the stored `state` field equals
the derivation from the counter (always true after `_update_state`). -/
def consistent (n : CanNode) : Prop := n.state = stateOfTEC n.TEC

theorem consistent_collide (n : CanNode) :
    consistent (CanNode.collide n) := by
  unfold consistent
  rw [CanNode.collide_state, CanNode.collide_TEC]

theorem consistent_succeed (n : CanNode) :
    consistent (CanNode.succeed n) := by
  unfold consistent
  rw [CanNode.succeed_state, CanNode.succeed_TEC]

theorem hHandleCollision_eq (t : Int) (evs : List (Event Ev1))
    (c r : Nat) (a dn : CanNode) :
    Exp1.hHandleCollision ⟨t, evs, c, r, a, dn⟩ =
      if (CanNode.collide a).state = ErrorStates.ACTIVE then
        CanBusBase.schedule GAP_US Ev1.handleCollision
          ⟨t, evs, c, r, CanNode.collide a, CanNode.collide dn⟩
      else
        CanBusBase.schedule GAP_US Ev1.recoverDefender
          ⟨t, evs, c, r, CanNode.collide a, CanNode.collide dn⟩ :=
  rfl

theorem hRecoverDefender_eq (t : Int) (evs : List (Event Ev1))
    (c r : Nat) (a dn : CanNode) :
    Exp1.hRecoverDefender ⟨t, evs, c, r, a, dn⟩ =
      if (CanNode.succeed dn).state ≠ ErrorStates.ACTIVE then
        CanBusBase.schedule GAP_US Ev1.recoverDefender
          ⟨t, evs, c, r, a, CanNode.succeed dn⟩
      else
        CanBusBase.schedule GAP_US Ev1.recoverAttacker
          ⟨t, evs, c, r, a, CanNode.succeed dn⟩ :=
  rfl

theorem hRecoverAttacker_eq (t : Int) (evs : List (Event Ev1))
    (c r : Nat) (a dn : CanNode) :
    Exp1.hRecoverAttacker ⟨t, evs, c, r, a, dn⟩ =
      if (CanNode.succeed a).state ≠ ErrorStates.ACTIVE then
        CanBusBase.schedule GAP_US Ev1.recoverAttacker
          ⟨t, evs, c, r, CanNode.succeed a, dn⟩
      else
        CanBusBase.schedule GAP_US Ev1.startRound
          ⟨t, evs, c, r, CanNode.succeed a, dn⟩ :=
  rfl

/-- The reachability invariant of experiment 1: states are consistent,
counters never exceed 135, the pending set is empty (only after the
final round, with the round counter one past the limit) or a single
event whose kind constrains the counters: at a round boundary or during
the collision phase both counters are equal and at most 127; during
defender recovery both are at least 128; during attacker recovery the
defender is back at 127 and the attacker at least 128. -/
def Inv1 (N : Nat) (s : CanBusBase Ev1) : Prop :=
  consistent s.attacker ∧ consistent s.defender ∧
  s.attacker.TEC ≤ 135 ∧ s.defender.TEC ≤ 135 ∧
  (match s.events with
   | [] => s.rounds = N + 1
   | [e] =>
       s.rounds ≤ N ∧
       (match e.kind with
        | Ev1.startRound =>
            s.attacker.TEC = s.defender.TEC ∧ s.attacker.TEC ≤ 127
        | Ev1.handleCollision =>
            s.attacker.TEC = s.defender.TEC ∧ s.attacker.TEC ≤ 127
        | Ev1.recoverDefender =>
            128 ≤ s.attacker.TEC ∧ 128 ≤ s.defender.TEC
        | Ev1.recoverAttacker =>
            s.defender.TEC = 127 ∧ 128 ≤ s.attacker.TEC)
   | _ :: _ :: _ => False)

theorem inv1_step (N : Nat) (s : CanBusBase Ev1) (h : Inv1 N s) :
    Inv1 N (Exp1.step N s) := by
  obtain ⟨t, evs, c, r, a, dn⟩ := s
  obtain ⟨hca, hcd, hba, hbd, hev⟩ := h
  have hca2 : consistent a := hca
  have hcd2 : consistent dn := hcd
  have hba2 : a.TEC ≤ 135 := hba
  have hbd2 : dn.TEC ≤ 135 := hbd
  rcases evs with _ | ⟨e, rest⟩
  · exact ⟨hca, hcd, hba, hbd, hev⟩
  rcases rest with _ | ⟨e2, rest2⟩
  case cons.cons => exact hev.elim
  obtain ⟨hr, hk⟩ := hev
  have hr2 : r ≤ N := hr
  rcases e with ⟨et, sq, ek⟩
  cases ek
  case startRound =>
      have heq : a.TEC = dn.TEC := hk.1
      have hle : a.TEC ≤ 127 := hk.2
      show Inv1 N (Exp1.hStartRound N ⟨et, [], c, r, a, dn⟩)
      rw [hStartRound_eq]
      by_cases hN : r + 1 > N
      · rw [if_pos hN]
        exact ⟨hca2, hcd2, hba2, hbd2, show r + 1 = N + 1 from by omega⟩
      · rw [if_neg hN]
        exact ⟨hca2, hcd2, hba2, hbd2, show r + 1 ≤ N from by omega, heq, hle⟩
  case handleCollision =>
      have heq : a.TEC = dn.TEC := hk.1
      have hle : a.TEC ≤ 127 := hk.2
      show Inv1 N (Exp1.hHandleCollision ⟨et, [], c, r, a, dn⟩)
      rw [hHandleCollision_eq, CanNode.collide_state]
      have hTa : (CanNode.collide a).TEC = a.TEC + 8 := CanNode.collide_TEC a
      have hTd : (CanNode.collide dn).TEC = dn.TEC + 8 := CanNode.collide_TEC dn
      by_cases hc : stateOfTEC (a.TEC + 8) = ErrorStates.ACTIVE
      · rw [if_pos hc]
        rw [stateOfTEC_ACTIVE_iff] at hc
        refine ⟨consistent_collide a, consistent_collide dn,
          show (CanNode.collide a).TEC ≤ 135 from by omega,
          show (CanNode.collide dn).TEC ≤ 135 from by omega,
          hr2,
          show (CanNode.collide a).TEC = (CanNode.collide dn).TEC from by omega,
          show (CanNode.collide a).TEC ≤ 127 from by omega⟩
      · rw [if_neg hc]
        rw [stateOfTEC_ACTIVE_iff] at hc
        refine ⟨consistent_collide a, consistent_collide dn,
          show (CanNode.collide a).TEC ≤ 135 from by omega,
          show (CanNode.collide dn).TEC ≤ 135 from by omega,
          hr2,
          show 128 ≤ (CanNode.collide a).TEC from by omega,
          show 128 ≤ (CanNode.collide dn).TEC from by omega⟩
  case recoverDefender =>
      have ha128 : 128 ≤ a.TEC := hk.1
      have hd128 : 128 ≤ dn.TEC := hk.2
      show Inv1 N (Exp1.hRecoverDefender ⟨et, [], c, r, a, dn⟩)
      rw [hRecoverDefender_eq, CanNode.succeed_state,
        if_pos (show dn.TEC > 0 from by omega)]
      have hTd : (CanNode.succeed dn).TEC = dn.TEC - 1 := by
        rw [CanNode.succeed_TEC, if_pos (show dn.TEC > 0 from by omega)]
      by_cases hc : stateOfTEC (dn.TEC - 1) = ErrorStates.ACTIVE
      · rw [if_neg (by simp [hc])]
        rw [stateOfTEC_ACTIVE_iff] at hc
        refine ⟨hca2, consistent_succeed dn,
          hba2,
          show (CanNode.succeed dn).TEC ≤ 135 from by omega,
          hr2,
          show (CanNode.succeed dn).TEC = 127 from by omega,
          ha128⟩
      · rw [if_pos (by simp [hc])]
        rw [stateOfTEC_ACTIVE_iff] at hc
        refine ⟨hca2, consistent_succeed dn,
          hba2,
          show (CanNode.succeed dn).TEC ≤ 135 from by omega,
          hr2,
          ha128,
          show 128 ≤ (CanNode.succeed dn).TEC from by omega⟩
  case recoverAttacker =>
      have hd127 : dn.TEC = 127 := hk.1
      have ha128 : 128 ≤ a.TEC := hk.2
      show Inv1 N (Exp1.hRecoverAttacker ⟨et, [], c, r, a, dn⟩)
      rw [hRecoverAttacker_eq, CanNode.succeed_state,
        if_pos (show a.TEC > 0 from by omega)]
      have hTa : (CanNode.succeed a).TEC = a.TEC - 1 := by
        rw [CanNode.succeed_TEC, if_pos (show a.TEC > 0 from by omega)]
      by_cases hc : stateOfTEC (a.TEC - 1) = ErrorStates.ACTIVE
      · rw [if_neg (by simp [hc])]
        rw [stateOfTEC_ACTIVE_iff] at hc
        refine ⟨consistent_succeed a, hcd2,
          show (CanNode.succeed a).TEC ≤ 135 from by omega,
          hbd2,
          hr2,
          show (CanNode.succeed a).TEC = dn.TEC from by omega,
          show (CanNode.succeed a).TEC ≤ 127 from by omega⟩
      · rw [if_pos (by simp [hc])]
        rw [stateOfTEC_ACTIVE_iff] at hc
        refine ⟨consistent_succeed a, hcd2,
          show (CanNode.succeed a).TEC ≤ 135 from by omega,
          hbd2,
          hr2,
          hd127,
          show 128 ≤ (CanNode.succeed a).TEC from by omega⟩

theorem inv1_run (N k : Nat) (s : CanBusBase Ev1) (h : Inv1 N s) :
    Inv1 N (Exp1.run N k s) := by
  induction k generalizing s with
  | zero => exact h
  | succ m ih => exact ih (Exp1.step N s) (inv1_step N s h)

theorem inv1_start (N : Nat) : Inv1 N Exp1.start := by
  refine ⟨rfl, rfl, by decide, by decide, Nat.zero_le N, rfl, by decide⟩

theorem inv1_empty_rounds (N : Nat) (s : CanBusBase Ev1) (h : Inv1 N s)
    (he : s.events = []) : s.rounds = N + 1 := by
  obtain ⟨-, -, -, -, hev⟩ := h
  rcases hsev : s.events with _ | ⟨e1, rest⟩
  · rw [hsev] at hev
    exact hev
  · rw [hsev] at he
    exact absurd he (by simp)

theorem inv1_startRound_active (N : Nat) (s : CanBusBase Ev1)
    (h : Inv1 N s) :
    ∀ e ∈ s.events, e.kind = Ev1.startRound →
      s.attacker.state = ErrorStates.ACTIVE ∧
      s.defender.state = ErrorStates.ACTIVE := by
  intro e he hk
  obtain ⟨hca, hcd, -, -, hev⟩ := h
  rcases hsev : s.events with _ | ⟨e1, rest⟩
  · rw [hsev] at he
    exact absurd he (List.not_mem_nil e)
  rcases rest with _ | ⟨e2, rest2⟩
  · rw [hsev] at he hev
    have he1 : e = e1 := List.mem_singleton.mp he
    rw [he1] at hk
    rcases e1 with ⟨t1, q1, k1⟩
    have hk2 : k1 = Ev1.startRound := hk
    subst hk2
    obtain ⟨-, heq, hle⟩ := hev
    have heq2 : s.attacker.TEC = s.defender.TEC := heq
    have hle2 : s.attacker.TEC ≤ 127 := hle
    constructor
    · rw [hca]
      exact (stateOfTEC_ACTIVE_iff _).mpr (by omega)
    · rw [hcd]
      exact (stateOfTEC_ACTIVE_iff _).mpr (by omega)
  · rw [hsev] at hev
    exact hev.elim

/-- C7: in the two-node collision-spiral scenario, for every round
limit of at least 1 and every number of loop iterations, neither the
attacker's nor the defender's counter ever reaches 256 and neither node
is ever BUS_OFF; moreover, at every round boundary (whenever the
pending event is the next `__start_round`) both nodes are ACTIVE
again. -/
theorem c7_no_bus_off (N : Nat) (_hN : 1 ≤ N) (k : Nat) :
    (Exp1.run N k Exp1.start).attacker.TEC < 256 ∧
    (Exp1.run N k Exp1.start).defender.TEC < 256 ∧
    (Exp1.run N k Exp1.start).attacker.state ≠ ErrorStates.BUS_OFF ∧
    (Exp1.run N k Exp1.start).defender.state ≠ ErrorStates.BUS_OFF ∧
    (∀ e ∈ (Exp1.run N k Exp1.start).events, e.kind = Ev1.startRound →
      (Exp1.run N k Exp1.start).attacker.state = ErrorStates.ACTIVE ∧
      (Exp1.run N k Exp1.start).defender.state = ErrorStates.ACTIVE) := by
  have h := inv1_run N k Exp1.start (inv1_start N)
  obtain ⟨hca, hcd, hba, hbd, -⟩ := h
  refine ⟨by omega, by omega, ?_, ?_,
    inv1_startRound_active N _ (inv1_run N k Exp1.start (inv1_start N))⟩
  · rw [hca]
    intro hbo
    rw [stateOfTEC_BUS_OFF_iff] at hbo
    omega
  · rw [hcd]
    intro hbo
    rw [stateOfTEC_BUS_OFF_iff] at hbo
    omega

/-- Witness for C7 with round limit 1 after 5 pops. -/
theorem c7_no_bus_off_witness :
    (Exp1.run 1 5 Exp1.start).attacker.TEC < 256 ∧
    (Exp1.run 1 5 Exp1.start).defender.TEC < 256 :=
  ⟨(c7_no_bus_off 1 (by decide) 5).1, (c7_no_bus_off 1 (by decide) 5).2.1⟩

/-- C9: for every round limit `N ≥ 1`, the two-node scenario's run
terminates (pending set empty) after exactly `18 N + 2` pops, with the
round counter at `N + 1` (the limit check fires only at round start, so
all `N` rounds ran in full) and both nodes back at counter 127, ACTIVE;
and whenever the pending set is empty — however many iterations were
taken — the round counter equals `N + 1`, so the run never stops
mid-round. -/
theorem c9_exact_rounds (N : Nat) (hN : 1 ≤ N) :
    (Exp1.run N (18 * N + 2) Exp1.start).events = [] ∧
    (Exp1.run N (18 * N + 2) Exp1.start).rounds = N + 1 ∧
    (Exp1.run N (18 * N + 2) Exp1.start).attacker.TEC = 127 ∧
    (Exp1.run N (18 * N + 2) Exp1.start).attacker.state = ErrorStates.ACTIVE ∧
    (Exp1.run N (18 * N + 2) Exp1.start).defender.TEC = 127 ∧
    (Exp1.run N (18 * N + 2) Exp1.start).defender.state = ErrorStates.ACTIVE ∧
    (∀ k, (Exp1.run N k Exp1.start).events = [] →
      (Exp1.run N k Exp1.start).rounds = N + 1) := by
  have hsplit : 18 * N + 2 = 19 + (18 * (N - 1) + 1) := by omega
  have hrounds := exp1_rounds N (N - 1) 527 19 1 (by omega)
  have hN1 : 1 + (N - 1) = N := by omega
  rw [hN1] at hrounds
  have hfin : Exp1.run N (18 * N + 2) Exp1.start =
      ⟨527 + 527 * ((N - 1 : Nat) : Int) + 31, [], 19 + 18 * (N - 1) + 1, N + 1,
        { name := "[E] ATTACKER", TEC := 127, state := ErrorStates.ACTIVE },
        { name := "[A] DEFENDER", TEC := 127, state := ErrorStates.ACTIVE }⟩ := by
    rw [hsplit, run1_add, exp1_first_round N hN, run1_add, hrounds,
      exp1_last N (527 + 527 * ((N - 1 : Nat) : Int)) (19 + 18 * (N - 1))]
  rw [hfin]
  refine ⟨rfl, rfl, rfl, rfl, rfl, rfl, ?_⟩
  intro k hk
  exact inv1_empty_rounds N _ (inv1_run N k Exp1.start (inv1_start N)) hk

/-- Witness for C9 at round limit 1: 20 pops, empty pending set, round
counter 2, both nodes ACTIVE at 127. -/
theorem c9_exact_rounds_witness :
    (Exp1.run 1 (18 * 1 + 2) Exp1.start).events = [] ∧
    (Exp1.run 1 (18 * 1 + 2) Exp1.start).rounds = 2 :=
  ⟨(c9_exact_rounds 1 (by decide)).1, (c9_exact_rounds 1 (by decide)).2.1⟩

/-- The five callbacks of `experiment_3/simulate.py`, defunctionalised:
`__send_attack`, `__handle_collision`, `__recover_defender`,
`__collide_passive`, `__assistant_send`.  The assistant `CanNode`
created in `__init__` is never mutated or read by any handler or by the
run loop (its sends are logged and rescheduled only), so like the other
observation-only artifacts it is not part of the state. -/
inductive Ev3 where
  | sendAttack
  | handleCollision
  | recoverDefender
  | collidePassive
  | assistantSend
deriving DecidableEq, Repr

namespace Exp3

/-- `CanBus.__send_attack`: schedule an immediate collision; while the
attacker is still ACTIVE, schedule the next periodic spoof. -/
def hSendAttack (s : CanBusBase Ev3) : CanBusBase Ev3 :=
  let s1 := CanBusBase.schedule 0 Ev3.handleCollision s
  if s1.attacker.state = ErrorStates.ACTIVE then
    CanBusBase.schedule ATTACKER_PERIOD_US Ev3.sendAttack s1
  else s1

/-- `CanBus.__handle_collision`: both nodes collide; repeat after the
gap while the attacker is ACTIVE, else start defender recovery. -/
def hHandleCollision (s : CanBusBase Ev3) : CanBusBase Ev3 :=
  let s1 := { s with
    attacker := CanNode.collide s.attacker
    defender := CanNode.collide s.defender }
  if s1.attacker.state = ErrorStates.ACTIVE then
    CanBusBase.schedule GAP_US Ev3.handleCollision s1
  else
    CanBusBase.schedule GAP_US Ev3.recoverDefender s1

/-- `CanBus.__recover_defender`: defender recovers; repeat after the
gap until ACTIVE, then start the passive-flag collision phase at once. -/
def hRecoverDefender (s : CanBusBase Ev3) : CanBusBase Ev3 :=
  let s1 := { s with defender := CanNode.succeed s.defender }
  if s1.defender.state ≠ ErrorStates.ACTIVE then
    CanBusBase.schedule GAP_US Ev3.recoverDefender s1
  else
    CanBusBase.schedule 0 Ev3.collidePassive s1

/-- `CanBus.__collide_passive`: the attacker alone collides; until it
reaches BUS_OFF the phase repeats after `min(ASSISTANT_GAP_US, GAP_US)`. -/
def hCollidePassive (s : CanBusBase Ev3) : CanBusBase Ev3 :=
  let s1 := { s with attacker := CanNode.collide s.attacker }
  if s1.attacker.state ≠ ErrorStates.BUS_OFF then
    CanBusBase.schedule (min ASSISTANT_GAP_US GAP_US) Ev3.collidePassive s1
  else s1

/-- `CanBus.__assistant_send`: while the attacker is not BUS_OFF,
reschedule the next assistant message after its gap. -/
def hAssistantSend (s : CanBusBase Ev3) : CanBusBase Ev3 :=
  if s.attacker.state ≠ ErrorStates.BUS_OFF then
    CanBusBase.schedule ASSISTANT_GAP_US Ev3.assistantSend s
  else s

/-- One iteration of experiment 3's `execute` loop: the loop runs while
events remain and the attacker is not BUS_OFF; each iteration pops the
minimal event, advances the clock and runs the callback. -/
def step (s : CanBusBase Ev3) : CanBusBase Ev3 :=
  if s.attacker.state = ErrorStates.BUS_OFF then s
  else
    match s.events with
    | [] => s
    | e :: rest =>
        let s1 := { s with events := rest, time_us := e.time }
        match e.kind with
        | Ev3.sendAttack => hSendAttack s1
        | Ev3.handleCollision => hHandleCollision s1
        | Ev3.recoverDefender => hRecoverDefender s1
        | Ev3.collidePassive => hCollidePassive s1
        | Ev3.assistantSend => hAssistantSend s1

/-- Run `k` loop iterations. -/
def run : Nat → CanBusBase Ev3 → CanBusBase Ev3
  | 0, s => s
  | k + 1, s => run k (step s)

/-- The state experiment 3's `execute` starts its loop from: the
attacker's first spoof and the assistant's first message, both at time
0, in that scheduling order. -/
def start : CanBusBase Ev3 :=
  CanBusBase.schedule 0 Ev3.assistantSend
    (CanBusBase.schedule 0 Ev3.sendAttack (CanBusBase.init Ev3))

end Exp3


/-- The stopped state of experiment 3 with the source's parameters
(gap 31 µs, assistant gap 200 µs, attacker period 1 s): reached after
39 pops, clock 961 µs, attacker at counter 256 (BUS_OFF), defender
recovered to 127, and two events still pending. -/
def exp3Final : CanBusBase Ev3 :=
  ⟨961,
      [{ time := 1000, seq := 35, kind := Ev3.assistantSend },
        { time := 1000000, seq := 3, kind := Ev3.sendAttack }],
      41, 0,
      { name := "[E] ATTACKER", TEC := 256, state := ErrorStates.BUS_OFF },
      { name := "[A] DEFENDER", TEC := 127, state := ErrorStates.ACTIVE }⟩

theorem exp3_run39 : Exp3.run 39 Exp3.start = exp3Final := by
  show Exp3.run 38 (Exp3.step
    (⟨0,
      [{ time := 0, seq := 0, kind := Ev3.sendAttack },
        { time := 0, seq := 1, kind := Ev3.assistantSend }],
      2, 0,
      { name := "[E] ATTACKER", TEC := 0, state := ErrorStates.ACTIVE },
      { name := "[A] DEFENDER", TEC := 0, state := ErrorStates.ACTIVE }⟩ : CanBusBase Ev3)) = exp3Final
  rw [show Exp3.step
    (⟨0,
      [{ time := 0, seq := 0, kind := Ev3.sendAttack },
        { time := 0, seq := 1, kind := Ev3.assistantSend }],
      2, 0,
      { name := "[E] ATTACKER", TEC := 0, state := ErrorStates.ACTIVE },
      { name := "[A] DEFENDER", TEC := 0, state := ErrorStates.ACTIVE }⟩ : CanBusBase Ev3) =
    (⟨0,
      [{ time := 0, seq := 1, kind := Ev3.assistantSend },
        { time := 0, seq := 2, kind := Ev3.handleCollision },
        { time := 1000000, seq := 3, kind := Ev3.sendAttack }],
      4, 0,
      { name := "[E] ATTACKER", TEC := 0, state := ErrorStates.ACTIVE },
      { name := "[A] DEFENDER", TEC := 0, state := ErrorStates.ACTIVE }⟩ : CanBusBase Ev3) from rfl]
  show Exp3.run 37 (Exp3.step
    (⟨0,
      [{ time := 0, seq := 1, kind := Ev3.assistantSend },
        { time := 0, seq := 2, kind := Ev3.handleCollision },
        { time := 1000000, seq := 3, kind := Ev3.sendAttack }],
      4, 0,
      { name := "[E] ATTACKER", TEC := 0, state := ErrorStates.ACTIVE },
      { name := "[A] DEFENDER", TEC := 0, state := ErrorStates.ACTIVE }⟩ : CanBusBase Ev3)) = exp3Final
  rw [show Exp3.step
    (⟨0,
      [{ time := 0, seq := 1, kind := Ev3.assistantSend },
        { time := 0, seq := 2, kind := Ev3.handleCollision },
        { time := 1000000, seq := 3, kind := Ev3.sendAttack }],
      4, 0,
      { name := "[E] ATTACKER", TEC := 0, state := ErrorStates.ACTIVE },
      { name := "[A] DEFENDER", TEC := 0, state := ErrorStates.ACTIVE }⟩ : CanBusBase Ev3) =
    (⟨0,
      [{ time := 0, seq := 2, kind := Ev3.handleCollision },
        { time := 200, seq := 4, kind := Ev3.assistantSend },
        { time := 1000000, seq := 3, kind := Ev3.sendAttack }],
      5, 0,
      { name := "[E] ATTACKER", TEC := 0, state := ErrorStates.ACTIVE },
      { name := "[A] DEFENDER", TEC := 0, state := ErrorStates.ACTIVE }⟩ : CanBusBase Ev3) from rfl]
  show Exp3.run 36 (Exp3.step
    (⟨0,
      [{ time := 0, seq := 2, kind := Ev3.handleCollision },
        { time := 200, seq := 4, kind := Ev3.assistantSend },
        { time := 1000000, seq := 3, kind := Ev3.sendAttack }],
      5, 0,
      { name := "[E] ATTACKER", TEC := 0, state := ErrorStates.ACTIVE },
      { name := "[A] DEFENDER", TEC := 0, state := ErrorStates.ACTIVE }⟩ : CanBusBase Ev3)) = exp3Final
  rw [show Exp3.step
    (⟨0,
      [{ time := 0, seq := 2, kind := Ev3.handleCollision },
        { time := 200, seq := 4, kind := Ev3.assistantSend },
        { time := 1000000, seq := 3, kind := Ev3.sendAttack }],
      5, 0,
      { name := "[E] ATTACKER", TEC := 0, state := ErrorStates.ACTIVE },
      { name := "[A] DEFENDER", TEC := 0, state := ErrorStates.ACTIVE }⟩ : CanBusBase Ev3) =
    (⟨0,
      [{ time := 31, seq := 5, kind := Ev3.handleCollision },
        { time := 200, seq := 4, kind := Ev3.assistantSend },
        { time := 1000000, seq := 3, kind := Ev3.sendAttack }],
      6, 0,
      { name := "[E] ATTACKER", TEC := 8, state := ErrorStates.ACTIVE },
      { name := "[A] DEFENDER", TEC := 8, state := ErrorStates.ACTIVE }⟩ : CanBusBase Ev3) from rfl]
  show Exp3.run 35 (Exp3.step
    (⟨0,
      [{ time := 31, seq := 5, kind := Ev3.handleCollision },
        { time := 200, seq := 4, kind := Ev3.assistantSend },
        { time := 1000000, seq := 3, kind := Ev3.sendAttack }],
      6, 0,
      { name := "[E] ATTACKER", TEC := 8, state := ErrorStates.ACTIVE },
      { name := "[A] DEFENDER", TEC := 8, state := ErrorStates.ACTIVE }⟩ : CanBusBase Ev3)) = exp3Final
  rw [show Exp3.step
    (⟨0,
      [{ time := 31, seq := 5, kind := Ev3.handleCollision },
        { time := 200, seq := 4, kind := Ev3.assistantSend },
        { time := 1000000, seq := 3, kind := Ev3.sendAttack }],
      6, 0,
      { name := "[E] ATTACKER", TEC := 8, state := ErrorStates.ACTIVE },
      { name := "[A] DEFENDER", TEC := 8, state := ErrorStates.ACTIVE }⟩ : CanBusBase Ev3) =
    (⟨31,
      [{ time := 62, seq := 6, kind := Ev3.handleCollision },
        { time := 200, seq := 4, kind := Ev3.assistantSend },
        { time := 1000000, seq := 3, kind := Ev3.sendAttack }],
      7, 0,
      { name := "[E] ATTACKER", TEC := 16, state := ErrorStates.ACTIVE },
      { name := "[A] DEFENDER", TEC := 16, state := ErrorStates.ACTIVE }⟩ : CanBusBase Ev3) from rfl]
  show Exp3.run 34 (Exp3.step
    (⟨31,
      [{ time := 62, seq := 6, kind := Ev3.handleCollision },
        { time := 200, seq := 4, kind := Ev3.assistantSend },
        { time := 1000000, seq := 3, kind := Ev3.sendAttack }],
      7, 0,
      { name := "[E] ATTACKER", TEC := 16, state := ErrorStates.ACTIVE },
      { name := "[A] DEFENDER", TEC := 16, state := ErrorStates.ACTIVE }⟩ : CanBusBase Ev3)) = exp3Final
  rw [show Exp3.step
    (⟨31,
      [{ time := 62, seq := 6, kind := Ev3.handleCollision },
        { time := 200, seq := 4, kind := Ev3.assistantSend },
        { time := 1000000, seq := 3, kind := Ev3.sendAttack }],
      7, 0,
      { name := "[E] ATTACKER", TEC := 16, state := ErrorStates.ACTIVE },
      { name := "[A] DEFENDER", TEC := 16, state := ErrorStates.ACTIVE }⟩ : CanBusBase Ev3) =
    (⟨62,
      [{ time := 93, seq := 7, kind := Ev3.handleCollision },
        { time := 200, seq := 4, kind := Ev3.assistantSend },
        { time := 1000000, seq := 3, kind := Ev3.sendAttack }],
      8, 0,
      { name := "[E] ATTACKER", TEC := 24, state := ErrorStates.ACTIVE },
      { name := "[A] DEFENDER", TEC := 24, state := ErrorStates.ACTIVE }⟩ : CanBusBase Ev3) from rfl]
  show Exp3.run 33 (Exp3.step
    (⟨62,
      [{ time := 93, seq := 7, kind := Ev3.handleCollision },
        { time := 200, seq := 4, kind := Ev3.assistantSend },
        { time := 1000000, seq := 3, kind := Ev3.sendAttack }],
      8, 0,
      { name := "[E] ATTACKER", TEC := 24, state := ErrorStates.ACTIVE },
      { name := "[A] DEFENDER", TEC := 24, state := ErrorStates.ACTIVE }⟩ : CanBusBase Ev3)) = exp3Final
  rw [show Exp3.step
    (⟨62,
      [{ time := 93, seq := 7, kind := Ev3.handleCollision },
        { time := 200, seq := 4, kind := Ev3.assistantSend },
        { time := 1000000, seq := 3, kind := Ev3.sendAttack }],
      8, 0,
      { name := "[E] ATTACKER", TEC := 24, state := ErrorStates.ACTIVE },
      { name := "[A] DEFENDER", TEC := 24, state := ErrorStates.ACTIVE }⟩ : CanBusBase Ev3) =
    (⟨93,
      [{ time := 124, seq := 8, kind := Ev3.handleCollision },
        { time := 200, seq := 4, kind := Ev3.assistantSend },
        { time := 1000000, seq := 3, kind := Ev3.sendAttack }],
      9, 0,
      { name := "[E] ATTACKER", TEC := 32, state := ErrorStates.ACTIVE },
      { name := "[A] DEFENDER", TEC := 32, state := ErrorStates.ACTIVE }⟩ : CanBusBase Ev3) from rfl]
  show Exp3.run 32 (Exp3.step
    (⟨93,
      [{ time := 124, seq := 8, kind := Ev3.handleCollision },
        { time := 200, seq := 4, kind := Ev3.assistantSend },
        { time := 1000000, seq := 3, kind := Ev3.sendAttack }],
      9, 0,
      { name := "[E] ATTACKER", TEC := 32, state := ErrorStates.ACTIVE },
      { name := "[A] DEFENDER", TEC := 32, state := ErrorStates.ACTIVE }⟩ : CanBusBase Ev3)) = exp3Final
  rw [show Exp3.step
    (⟨93,
      [{ time := 124, seq := 8, kind := Ev3.handleCollision },
        { time := 200, seq := 4, kind := Ev3.assistantSend },
        { time := 1000000, seq := 3, kind := Ev3.sendAttack }],
      9, 0,
      { name := "[E] ATTACKER", TEC := 32, state := ErrorStates.ACTIVE },
      { name := "[A] DEFENDER", TEC := 32, state := ErrorStates.ACTIVE }⟩ : CanBusBase Ev3) =
    (⟨124,
      [{ time := 155, seq := 9, kind := Ev3.handleCollision },
        { time := 200, seq := 4, kind := Ev3.assistantSend },
        { time := 1000000, seq := 3, kind := Ev3.sendAttack }],
      10, 0,
      { name := "[E] ATTACKER", TEC := 40, state := ErrorStates.ACTIVE },
      { name := "[A] DEFENDER", TEC := 40, state := ErrorStates.ACTIVE }⟩ : CanBusBase Ev3) from rfl]
  show Exp3.run 31 (Exp3.step
    (⟨124,
      [{ time := 155, seq := 9, kind := Ev3.handleCollision },
        { time := 200, seq := 4, kind := Ev3.assistantSend },
        { time := 1000000, seq := 3, kind := Ev3.sendAttack }],
      10, 0,
      { name := "[E] ATTACKER", TEC := 40, state := ErrorStates.ACTIVE },
      { name := "[A] DEFENDER", TEC := 40, state := ErrorStates.ACTIVE }⟩ : CanBusBase Ev3)) = exp3Final
  rw [show Exp3.step
    (⟨124,
      [{ time := 155, seq := 9, kind := Ev3.handleCollision },
        { time := 200, seq := 4, kind := Ev3.assistantSend },
        { time := 1000000, seq := 3, kind := Ev3.sendAttack }],
      10, 0,
      { name := "[E] ATTACKER", TEC := 40, state := ErrorStates.ACTIVE },
      { name := "[A] DEFENDER", TEC := 40, state := ErrorStates.ACTIVE }⟩ : CanBusBase Ev3) =
    (⟨155,
      [{ time := 186, seq := 10, kind := Ev3.handleCollision },
        { time := 200, seq := 4, kind := Ev3.assistantSend },
        { time := 1000000, seq := 3, kind := Ev3.sendAttack }],
      11, 0,
      { name := "[E] ATTACKER", TEC := 48, state := ErrorStates.ACTIVE },
      { name := "[A] DEFENDER", TEC := 48, state := ErrorStates.ACTIVE }⟩ : CanBusBase Ev3) from rfl]
  show Exp3.run 30 (Exp3.step
    (⟨155,
      [{ time := 186, seq := 10, kind := Ev3.handleCollision },
        { time := 200, seq := 4, kind := Ev3.assistantSend },
        { time := 1000000, seq := 3, kind := Ev3.sendAttack }],
      11, 0,
      { name := "[E] ATTACKER", TEC := 48, state := ErrorStates.ACTIVE },
      { name := "[A] DEFENDER", TEC := 48, state := ErrorStates.ACTIVE }⟩ : CanBusBase Ev3)) = exp3Final
  rw [show Exp3.step
    (⟨155,
      [{ time := 186, seq := 10, kind := Ev3.handleCollision },
        { time := 200, seq := 4, kind := Ev3.assistantSend },
        { time := 1000000, seq := 3, kind := Ev3.sendAttack }],
      11, 0,
      { name := "[E] ATTACKER", TEC := 48, state := ErrorStates.ACTIVE },
      { name := "[A] DEFENDER", TEC := 48, state := ErrorStates.ACTIVE }⟩ : CanBusBase Ev3) =
    (⟨186,
      [{ time := 200, seq := 4, kind := Ev3.assistantSend },
        { time := 217, seq := 11, kind := Ev3.handleCollision },
        { time := 1000000, seq := 3, kind := Ev3.sendAttack }],
      12, 0,
      { name := "[E] ATTACKER", TEC := 56, state := ErrorStates.ACTIVE },
      { name := "[A] DEFENDER", TEC := 56, state := ErrorStates.ACTIVE }⟩ : CanBusBase Ev3) from rfl]
  show Exp3.run 29 (Exp3.step
    (⟨186,
      [{ time := 200, seq := 4, kind := Ev3.assistantSend },
        { time := 217, seq := 11, kind := Ev3.handleCollision },
        { time := 1000000, seq := 3, kind := Ev3.sendAttack }],
      12, 0,
      { name := "[E] ATTACKER", TEC := 56, state := ErrorStates.ACTIVE },
      { name := "[A] DEFENDER", TEC := 56, state := ErrorStates.ACTIVE }⟩ : CanBusBase Ev3)) = exp3Final
  rw [show Exp3.step
    (⟨186,
      [{ time := 200, seq := 4, kind := Ev3.assistantSend },
        { time := 217, seq := 11, kind := Ev3.handleCollision },
        { time := 1000000, seq := 3, kind := Ev3.sendAttack }],
      12, 0,
      { name := "[E] ATTACKER", TEC := 56, state := ErrorStates.ACTIVE },
      { name := "[A] DEFENDER", TEC := 56, state := ErrorStates.ACTIVE }⟩ : CanBusBase Ev3) =
    (⟨200,
      [{ time := 217, seq := 11, kind := Ev3.handleCollision },
        { time := 400, seq := 12, kind := Ev3.assistantSend },
        { time := 1000000, seq := 3, kind := Ev3.sendAttack }],
      13, 0,
      { name := "[E] ATTACKER", TEC := 56, state := ErrorStates.ACTIVE },
      { name := "[A] DEFENDER", TEC := 56, state := ErrorStates.ACTIVE }⟩ : CanBusBase Ev3) from rfl]
  show Exp3.run 28 (Exp3.step
    (⟨200,
      [{ time := 217, seq := 11, kind := Ev3.handleCollision },
        { time := 400, seq := 12, kind := Ev3.assistantSend },
        { time := 1000000, seq := 3, kind := Ev3.sendAttack }],
      13, 0,
      { name := "[E] ATTACKER", TEC := 56, state := ErrorStates.ACTIVE },
      { name := "[A] DEFENDER", TEC := 56, state := ErrorStates.ACTIVE }⟩ : CanBusBase Ev3)) = exp3Final
  rw [show Exp3.step
    (⟨200,
      [{ time := 217, seq := 11, kind := Ev3.handleCollision },
        { time := 400, seq := 12, kind := Ev3.assistantSend },
        { time := 1000000, seq := 3, kind := Ev3.sendAttack }],
      13, 0,
      { name := "[E] ATTACKER", TEC := 56, state := ErrorStates.ACTIVE },
      { name := "[A] DEFENDER", TEC := 56, state := ErrorStates.ACTIVE }⟩ : CanBusBase Ev3) =
    (⟨217,
      [{ time := 248, seq := 13, kind := Ev3.handleCollision },
        { time := 400, seq := 12, kind := Ev3.assistantSend },
        { time := 1000000, seq := 3, kind := Ev3.sendAttack }],
      14, 0,
      { name := "[E] ATTACKER", TEC := 64, state := ErrorStates.ACTIVE },
      { name := "[A] DEFENDER", TEC := 64, state := ErrorStates.ACTIVE }⟩ : CanBusBase Ev3) from rfl]
  show Exp3.run 27 (Exp3.step
    (⟨217,
      [{ time := 248, seq := 13, kind := Ev3.handleCollision },
        { time := 400, seq := 12, kind := Ev3.assistantSend },
        { time := 1000000, seq := 3, kind := Ev3.sendAttack }],
      14, 0,
      { name := "[E] ATTACKER", TEC := 64, state := ErrorStates.ACTIVE },
      { name := "[A] DEFENDER", TEC := 64, state := ErrorStates.ACTIVE }⟩ : CanBusBase Ev3)) = exp3Final
  rw [show Exp3.step
    (⟨217,
      [{ time := 248, seq := 13, kind := Ev3.handleCollision },
        { time := 400, seq := 12, kind := Ev3.assistantSend },
        { time := 1000000, seq := 3, kind := Ev3.sendAttack }],
      14, 0,
      { name := "[E] ATTACKER", TEC := 64, state := ErrorStates.ACTIVE },
      { name := "[A] DEFENDER", TEC := 64, state := ErrorStates.ACTIVE }⟩ : CanBusBase Ev3) =
    (⟨248,
      [{ time := 279, seq := 14, kind := Ev3.handleCollision },
        { time := 400, seq := 12, kind := Ev3.assistantSend },
        { time := 1000000, seq := 3, kind := Ev3.sendAttack }],
      15, 0,
      { name := "[E] ATTACKER", TEC := 72, state := ErrorStates.ACTIVE },
      { name := "[A] DEFENDER", TEC := 72, state := ErrorStates.ACTIVE }⟩ : CanBusBase Ev3) from rfl]
  show Exp3.run 26 (Exp3.step
    (⟨248,
      [{ time := 279, seq := 14, kind := Ev3.handleCollision },
        { time := 400, seq := 12, kind := Ev3.assistantSend },
        { time := 1000000, seq := 3, kind := Ev3.sendAttack }],
      15, 0,
      { name := "[E] ATTACKER", TEC := 72, state := ErrorStates.ACTIVE },
      { name := "[A] DEFENDER", TEC := 72, state := ErrorStates.ACTIVE }⟩ : CanBusBase Ev3)) = exp3Final
  rw [show Exp3.step
    (⟨248,
      [{ time := 279, seq := 14, kind := Ev3.handleCollision },
        { time := 400, seq := 12, kind := Ev3.assistantSend },
        { time := 1000000, seq := 3, kind := Ev3.sendAttack }],
      15, 0,
      { name := "[E] ATTACKER", TEC := 72, state := ErrorStates.ACTIVE },
      { name := "[A] DEFENDER", TEC := 72, state := ErrorStates.ACTIVE }⟩ : CanBusBase Ev3) =
    (⟨279,
      [{ time := 310, seq := 15, kind := Ev3.handleCollision },
        { time := 400, seq := 12, kind := Ev3.assistantSend },
        { time := 1000000, seq := 3, kind := Ev3.sendAttack }],
      16, 0,
      { name := "[E] ATTACKER", TEC := 80, state := ErrorStates.ACTIVE },
      { name := "[A] DEFENDER", TEC := 80, state := ErrorStates.ACTIVE }⟩ : CanBusBase Ev3) from rfl]
  show Exp3.run 25 (Exp3.step
    (⟨279,
      [{ time := 310, seq := 15, kind := Ev3.handleCollision },
        { time := 400, seq := 12, kind := Ev3.assistantSend },
        { time := 1000000, seq := 3, kind := Ev3.sendAttack }],
      16, 0,
      { name := "[E] ATTACKER", TEC := 80, state := ErrorStates.ACTIVE },
      { name := "[A] DEFENDER", TEC := 80, state := ErrorStates.ACTIVE }⟩ : CanBusBase Ev3)) = exp3Final
  rw [show Exp3.step
    (⟨279,
      [{ time := 310, seq := 15, kind := Ev3.handleCollision },
        { time := 400, seq := 12, kind := Ev3.assistantSend },
        { time := 1000000, seq := 3, kind := Ev3.sendAttack }],
      16, 0,
      { name := "[E] ATTACKER", TEC := 80, state := ErrorStates.ACTIVE },
      { name := "[A] DEFENDER", TEC := 80, state := ErrorStates.ACTIVE }⟩ : CanBusBase Ev3) =
    (⟨310,
      [{ time := 341, seq := 16, kind := Ev3.handleCollision },
        { time := 400, seq := 12, kind := Ev3.assistantSend },
        { time := 1000000, seq := 3, kind := Ev3.sendAttack }],
      17, 0,
      { name := "[E] ATTACKER", TEC := 88, state := ErrorStates.ACTIVE },
      { name := "[A] DEFENDER", TEC := 88, state := ErrorStates.ACTIVE }⟩ : CanBusBase Ev3) from rfl]
  show Exp3.run 24 (Exp3.step
    (⟨310,
      [{ time := 341, seq := 16, kind := Ev3.handleCollision },
        { time := 400, seq := 12, kind := Ev3.assistantSend },
        { time := 1000000, seq := 3, kind := Ev3.sendAttack }],
      17, 0,
      { name := "[E] ATTACKER", TEC := 88, state := ErrorStates.ACTIVE },
      { name := "[A] DEFENDER", TEC := 88, state := ErrorStates.ACTIVE }⟩ : CanBusBase Ev3)) = exp3Final
  rw [show Exp3.step
    (⟨310,
      [{ time := 341, seq := 16, kind := Ev3.handleCollision },
        { time := 400, seq := 12, kind := Ev3.assistantSend },
        { time := 1000000, seq := 3, kind := Ev3.sendAttack }],
      17, 0,
      { name := "[E] ATTACKER", TEC := 88, state := ErrorStates.ACTIVE },
      { name := "[A] DEFENDER", TEC := 88, state := ErrorStates.ACTIVE }⟩ : CanBusBase Ev3) =
    (⟨341,
      [{ time := 372, seq := 17, kind := Ev3.handleCollision },
        { time := 400, seq := 12, kind := Ev3.assistantSend },
        { time := 1000000, seq := 3, kind := Ev3.sendAttack }],
      18, 0,
      { name := "[E] ATTACKER", TEC := 96, state := ErrorStates.ACTIVE },
      { name := "[A] DEFENDER", TEC := 96, state := ErrorStates.ACTIVE }⟩ : CanBusBase Ev3) from rfl]
  show Exp3.run 23 (Exp3.step
    (⟨341,
      [{ time := 372, seq := 17, kind := Ev3.handleCollision },
        { time := 400, seq := 12, kind := Ev3.assistantSend },
        { time := 1000000, seq := 3, kind := Ev3.sendAttack }],
      18, 0,
      { name := "[E] ATTACKER", TEC := 96, state := ErrorStates.ACTIVE },
      { name := "[A] DEFENDER", TEC := 96, state := ErrorStates.ACTIVE }⟩ : CanBusBase Ev3)) = exp3Final
  rw [show Exp3.step
    (⟨341,
      [{ time := 372, seq := 17, kind := Ev3.handleCollision },
        { time := 400, seq := 12, kind := Ev3.assistantSend },
        { time := 1000000, seq := 3, kind := Ev3.sendAttack }],
      18, 0,
      { name := "[E] ATTACKER", TEC := 96, state := ErrorStates.ACTIVE },
      { name := "[A] DEFENDER", TEC := 96, state := ErrorStates.ACTIVE }⟩ : CanBusBase Ev3) =
    (⟨372,
      [{ time := 400, seq := 12, kind := Ev3.assistantSend },
        { time := 403, seq := 18, kind := Ev3.handleCollision },
        { time := 1000000, seq := 3, kind := Ev3.sendAttack }],
      19, 0,
      { name := "[E] ATTACKER", TEC := 104, state := ErrorStates.ACTIVE },
      { name := "[A] DEFENDER", TEC := 104, state := ErrorStates.ACTIVE }⟩ : CanBusBase Ev3) from rfl]
  show Exp3.run 22 (Exp3.step
    (⟨372,
      [{ time := 400, seq := 12, kind := Ev3.assistantSend },
        { time := 403, seq := 18, kind := Ev3.handleCollision },
        { time := 1000000, seq := 3, kind := Ev3.sendAttack }],
      19, 0,
      { name := "[E] ATTACKER", TEC := 104, state := ErrorStates.ACTIVE },
      { name := "[A] DEFENDER", TEC := 104, state := ErrorStates.ACTIVE }⟩ : CanBusBase Ev3)) = exp3Final
  rw [show Exp3.step
    (⟨372,
      [{ time := 400, seq := 12, kind := Ev3.assistantSend },
        { time := 403, seq := 18, kind := Ev3.handleCollision },
        { time := 1000000, seq := 3, kind := Ev3.sendAttack }],
      19, 0,
      { name := "[E] ATTACKER", TEC := 104, state := ErrorStates.ACTIVE },
      { name := "[A] DEFENDER", TEC := 104, state := ErrorStates.ACTIVE }⟩ : CanBusBase Ev3) =
    (⟨400,
      [{ time := 403, seq := 18, kind := Ev3.handleCollision },
        { time := 600, seq := 19, kind := Ev3.assistantSend },
        { time := 1000000, seq := 3, kind := Ev3.sendAttack }],
      20, 0,
      { name := "[E] ATTACKER", TEC := 104, state := ErrorStates.ACTIVE },
      { name := "[A] DEFENDER", TEC := 104, state := ErrorStates.ACTIVE }⟩ : CanBusBase Ev3) from rfl]
  show Exp3.run 21 (Exp3.step
    (⟨400,
      [{ time := 403, seq := 18, kind := Ev3.handleCollision },
        { time := 600, seq := 19, kind := Ev3.assistantSend },
        { time := 1000000, seq := 3, kind := Ev3.sendAttack }],
      20, 0,
      { name := "[E] ATTACKER", TEC := 104, state := ErrorStates.ACTIVE },
      { name := "[A] DEFENDER", TEC := 104, state := ErrorStates.ACTIVE }⟩ : CanBusBase Ev3)) = exp3Final
  rw [show Exp3.step
    (⟨400,
      [{ time := 403, seq := 18, kind := Ev3.handleCollision },
        { time := 600, seq := 19, kind := Ev3.assistantSend },
        { time := 1000000, seq := 3, kind := Ev3.sendAttack }],
      20, 0,
      { name := "[E] ATTACKER", TEC := 104, state := ErrorStates.ACTIVE },
      { name := "[A] DEFENDER", TEC := 104, state := ErrorStates.ACTIVE }⟩ : CanBusBase Ev3) =
    (⟨403,
      [{ time := 434, seq := 20, kind := Ev3.handleCollision },
        { time := 600, seq := 19, kind := Ev3.assistantSend },
        { time := 1000000, seq := 3, kind := Ev3.sendAttack }],
      21, 0,
      { name := "[E] ATTACKER", TEC := 112, state := ErrorStates.ACTIVE },
      { name := "[A] DEFENDER", TEC := 112, state := ErrorStates.ACTIVE }⟩ : CanBusBase Ev3) from rfl]
  show Exp3.run 20 (Exp3.step
    (⟨403,
      [{ time := 434, seq := 20, kind := Ev3.handleCollision },
        { time := 600, seq := 19, kind := Ev3.assistantSend },
        { time := 1000000, seq := 3, kind := Ev3.sendAttack }],
      21, 0,
      { name := "[E] ATTACKER", TEC := 112, state := ErrorStates.ACTIVE },
      { name := "[A] DEFENDER", TEC := 112, state := ErrorStates.ACTIVE }⟩ : CanBusBase Ev3)) = exp3Final
  rw [show Exp3.step
    (⟨403,
      [{ time := 434, seq := 20, kind := Ev3.handleCollision },
        { time := 600, seq := 19, kind := Ev3.assistantSend },
        { time := 1000000, seq := 3, kind := Ev3.sendAttack }],
      21, 0,
      { name := "[E] ATTACKER", TEC := 112, state := ErrorStates.ACTIVE },
      { name := "[A] DEFENDER", TEC := 112, state := ErrorStates.ACTIVE }⟩ : CanBusBase Ev3) =
    (⟨434,
      [{ time := 465, seq := 21, kind := Ev3.handleCollision },
        { time := 600, seq := 19, kind := Ev3.assistantSend },
        { time := 1000000, seq := 3, kind := Ev3.sendAttack }],
      22, 0,
      { name := "[E] ATTACKER", TEC := 120, state := ErrorStates.ACTIVE },
      { name := "[A] DEFENDER", TEC := 120, state := ErrorStates.ACTIVE }⟩ : CanBusBase Ev3) from rfl]
  show Exp3.run 19 (Exp3.step
    (⟨434,
      [{ time := 465, seq := 21, kind := Ev3.handleCollision },
        { time := 600, seq := 19, kind := Ev3.assistantSend },
        { time := 1000000, seq := 3, kind := Ev3.sendAttack }],
      22, 0,
      { name := "[E] ATTACKER", TEC := 120, state := ErrorStates.ACTIVE },
      { name := "[A] DEFENDER", TEC := 120, state := ErrorStates.ACTIVE }⟩ : CanBusBase Ev3)) = exp3Final
  rw [show Exp3.step
    (⟨434,
      [{ time := 465, seq := 21, kind := Ev3.handleCollision },
        { time := 600, seq := 19, kind := Ev3.assistantSend },
        { time := 1000000, seq := 3, kind := Ev3.sendAttack }],
      22, 0,
      { name := "[E] ATTACKER", TEC := 120, state := ErrorStates.ACTIVE },
      { name := "[A] DEFENDER", TEC := 120, state := ErrorStates.ACTIVE }⟩ : CanBusBase Ev3) =
    (⟨465,
      [{ time := 496, seq := 22, kind := Ev3.recoverDefender },
        { time := 600, seq := 19, kind := Ev3.assistantSend },
        { time := 1000000, seq := 3, kind := Ev3.sendAttack }],
      23, 0,
      { name := "[E] ATTACKER", TEC := 128, state := ErrorStates.ERROR_PASSIVE },
      { name := "[A] DEFENDER", TEC := 128, state := ErrorStates.ERROR_PASSIVE }⟩ : CanBusBase Ev3) from rfl]
  show Exp3.run 18 (Exp3.step
    (⟨465,
      [{ time := 496, seq := 22, kind := Ev3.recoverDefender },
        { time := 600, seq := 19, kind := Ev3.assistantSend },
        { time := 1000000, seq := 3, kind := Ev3.sendAttack }],
      23, 0,
      { name := "[E] ATTACKER", TEC := 128, state := ErrorStates.ERROR_PASSIVE },
      { name := "[A] DEFENDER", TEC := 128, state := ErrorStates.ERROR_PASSIVE }⟩ : CanBusBase Ev3)) = exp3Final
  rw [show Exp3.step
    (⟨465,
      [{ time := 496, seq := 22, kind := Ev3.recoverDefender },
        { time := 600, seq := 19, kind := Ev3.assistantSend },
        { time := 1000000, seq := 3, kind := Ev3.sendAttack }],
      23, 0,
      { name := "[E] ATTACKER", TEC := 128, state := ErrorStates.ERROR_PASSIVE },
      { name := "[A] DEFENDER", TEC := 128, state := ErrorStates.ERROR_PASSIVE }⟩ : CanBusBase Ev3) =
    (⟨496,
      [{ time := 496, seq := 23, kind := Ev3.collidePassive },
        { time := 600, seq := 19, kind := Ev3.assistantSend },
        { time := 1000000, seq := 3, kind := Ev3.sendAttack }],
      24, 0,
      { name := "[E] ATTACKER", TEC := 128, state := ErrorStates.ERROR_PASSIVE },
      { name := "[A] DEFENDER", TEC := 127, state := ErrorStates.ACTIVE }⟩ : CanBusBase Ev3) from rfl]
  show Exp3.run 17 (Exp3.step
    (⟨496,
      [{ time := 496, seq := 23, kind := Ev3.collidePassive },
        { time := 600, seq := 19, kind := Ev3.assistantSend },
        { time := 1000000, seq := 3, kind := Ev3.sendAttack }],
      24, 0,
      { name := "[E] ATTACKER", TEC := 128, state := ErrorStates.ERROR_PASSIVE },
      { name := "[A] DEFENDER", TEC := 127, state := ErrorStates.ACTIVE }⟩ : CanBusBase Ev3)) = exp3Final
  rw [show Exp3.step
    (⟨496,
      [{ time := 496, seq := 23, kind := Ev3.collidePassive },
        { time := 600, seq := 19, kind := Ev3.assistantSend },
        { time := 1000000, seq := 3, kind := Ev3.sendAttack }],
      24, 0,
      { name := "[E] ATTACKER", TEC := 128, state := ErrorStates.ERROR_PASSIVE },
      { name := "[A] DEFENDER", TEC := 127, state := ErrorStates.ACTIVE }⟩ : CanBusBase Ev3) =
    (⟨496,
      [{ time := 527, seq := 24, kind := Ev3.collidePassive },
        { time := 600, seq := 19, kind := Ev3.assistantSend },
        { time := 1000000, seq := 3, kind := Ev3.sendAttack }],
      25, 0,
      { name := "[E] ATTACKER", TEC := 136, state := ErrorStates.ERROR_PASSIVE },
      { name := "[A] DEFENDER", TEC := 127, state := ErrorStates.ACTIVE }⟩ : CanBusBase Ev3) from rfl]
  show Exp3.run 16 (Exp3.step
    (⟨496,
      [{ time := 527, seq := 24, kind := Ev3.collidePassive },
        { time := 600, seq := 19, kind := Ev3.assistantSend },
        { time := 1000000, seq := 3, kind := Ev3.sendAttack }],
      25, 0,
      { name := "[E] ATTACKER", TEC := 136, state := ErrorStates.ERROR_PASSIVE },
      { name := "[A] DEFENDER", TEC := 127, state := ErrorStates.ACTIVE }⟩ : CanBusBase Ev3)) = exp3Final
  rw [show Exp3.step
    (⟨496,
      [{ time := 527, seq := 24, kind := Ev3.collidePassive },
        { time := 600, seq := 19, kind := Ev3.assistantSend },
        { time := 1000000, seq := 3, kind := Ev3.sendAttack }],
      25, 0,
      { name := "[E] ATTACKER", TEC := 136, state := ErrorStates.ERROR_PASSIVE },
      { name := "[A] DEFENDER", TEC := 127, state := ErrorStates.ACTIVE }⟩ : CanBusBase Ev3) =
    (⟨527,
      [{ time := 558, seq := 25, kind := Ev3.collidePassive },
        { time := 600, seq := 19, kind := Ev3.assistantSend },
        { time := 1000000, seq := 3, kind := Ev3.sendAttack }],
      26, 0,
      { name := "[E] ATTACKER", TEC := 144, state := ErrorStates.ERROR_PASSIVE },
      { name := "[A] DEFENDER", TEC := 127, state := ErrorStates.ACTIVE }⟩ : CanBusBase Ev3) from rfl]
  show Exp3.run 15 (Exp3.step
    (⟨527,
      [{ time := 558, seq := 25, kind := Ev3.collidePassive },
        { time := 600, seq := 19, kind := Ev3.assistantSend },
        { time := 1000000, seq := 3, kind := Ev3.sendAttack }],
      26, 0,
      { name := "[E] ATTACKER", TEC := 144, state := ErrorStates.ERROR_PASSIVE },
      { name := "[A] DEFENDER", TEC := 127, state := ErrorStates.ACTIVE }⟩ : CanBusBase Ev3)) = exp3Final
  rw [show Exp3.step
    (⟨527,
      [{ time := 558, seq := 25, kind := Ev3.collidePassive },
        { time := 600, seq := 19, kind := Ev3.assistantSend },
        { time := 1000000, seq := 3, kind := Ev3.sendAttack }],
      26, 0,
      { name := "[E] ATTACKER", TEC := 144, state := ErrorStates.ERROR_PASSIVE },
      { name := "[A] DEFENDER", TEC := 127, state := ErrorStates.ACTIVE }⟩ : CanBusBase Ev3) =
    (⟨558,
      [{ time := 589, seq := 26, kind := Ev3.collidePassive },
        { time := 600, seq := 19, kind := Ev3.assistantSend },
        { time := 1000000, seq := 3, kind := Ev3.sendAttack }],
      27, 0,
      { name := "[E] ATTACKER", TEC := 152, state := ErrorStates.ERROR_PASSIVE },
      { name := "[A] DEFENDER", TEC := 127, state := ErrorStates.ACTIVE }⟩ : CanBusBase Ev3) from rfl]
  show Exp3.run 14 (Exp3.step
    (⟨558,
      [{ time := 589, seq := 26, kind := Ev3.collidePassive },
        { time := 600, seq := 19, kind := Ev3.assistantSend },
        { time := 1000000, seq := 3, kind := Ev3.sendAttack }],
      27, 0,
      { name := "[E] ATTACKER", TEC := 152, state := ErrorStates.ERROR_PASSIVE },
      { name := "[A] DEFENDER", TEC := 127, state := ErrorStates.ACTIVE }⟩ : CanBusBase Ev3)) = exp3Final
  rw [show Exp3.step
    (⟨558,
      [{ time := 589, seq := 26, kind := Ev3.collidePassive },
        { time := 600, seq := 19, kind := Ev3.assistantSend },
        { time := 1000000, seq := 3, kind := Ev3.sendAttack }],
      27, 0,
      { name := "[E] ATTACKER", TEC := 152, state := ErrorStates.ERROR_PASSIVE },
      { name := "[A] DEFENDER", TEC := 127, state := ErrorStates.ACTIVE }⟩ : CanBusBase Ev3) =
    (⟨589,
      [{ time := 600, seq := 19, kind := Ev3.assistantSend },
        { time := 620, seq := 27, kind := Ev3.collidePassive },
        { time := 1000000, seq := 3, kind := Ev3.sendAttack }],
      28, 0,
      { name := "[E] ATTACKER", TEC := 160, state := ErrorStates.ERROR_PASSIVE },
      { name := "[A] DEFENDER", TEC := 127, state := ErrorStates.ACTIVE }⟩ : CanBusBase Ev3) from rfl]
  show Exp3.run 13 (Exp3.step
    (⟨589,
      [{ time := 600, seq := 19, kind := Ev3.assistantSend },
        { time := 620, seq := 27, kind := Ev3.collidePassive },
        { time := 1000000, seq := 3, kind := Ev3.sendAttack }],
      28, 0,
      { name := "[E] ATTACKER", TEC := 160, state := ErrorStates.ERROR_PASSIVE },
      { name := "[A] DEFENDER", TEC := 127, state := ErrorStates.ACTIVE }⟩ : CanBusBase Ev3)) = exp3Final
  rw [show Exp3.step
    (⟨589,
      [{ time := 600, seq := 19, kind := Ev3.assistantSend },
        { time := 620, seq := 27, kind := Ev3.collidePassive },
        { time := 1000000, seq := 3, kind := Ev3.sendAttack }],
      28, 0,
      { name := "[E] ATTACKER", TEC := 160, state := ErrorStates.ERROR_PASSIVE },
      { name := "[A] DEFENDER", TEC := 127, state := ErrorStates.ACTIVE }⟩ : CanBusBase Ev3) =
    (⟨600,
      [{ time := 620, seq := 27, kind := Ev3.collidePassive },
        { time := 800, seq := 28, kind := Ev3.assistantSend },
        { time := 1000000, seq := 3, kind := Ev3.sendAttack }],
      29, 0,
      { name := "[E] ATTACKER", TEC := 160, state := ErrorStates.ERROR_PASSIVE },
      { name := "[A] DEFENDER", TEC := 127, state := ErrorStates.ACTIVE }⟩ : CanBusBase Ev3) from rfl]
  show Exp3.run 12 (Exp3.step
    (⟨600,
      [{ time := 620, seq := 27, kind := Ev3.collidePassive },
        { time := 800, seq := 28, kind := Ev3.assistantSend },
        { time := 1000000, seq := 3, kind := Ev3.sendAttack }],
      29, 0,
      { name := "[E] ATTACKER", TEC := 160, state := ErrorStates.ERROR_PASSIVE },
      { name := "[A] DEFENDER", TEC := 127, state := ErrorStates.ACTIVE }⟩ : CanBusBase Ev3)) = exp3Final
  rw [show Exp3.step
    (⟨600,
      [{ time := 620, seq := 27, kind := Ev3.collidePassive },
        { time := 800, seq := 28, kind := Ev3.assistantSend },
        { time := 1000000, seq := 3, kind := Ev3.sendAttack }],
      29, 0,
      { name := "[E] ATTACKER", TEC := 160, state := ErrorStates.ERROR_PASSIVE },
      { name := "[A] DEFENDER", TEC := 127, state := ErrorStates.ACTIVE }⟩ : CanBusBase Ev3) =
    (⟨620,
      [{ time := 651, seq := 29, kind := Ev3.collidePassive },
        { time := 800, seq := 28, kind := Ev3.assistantSend },
        { time := 1000000, seq := 3, kind := Ev3.sendAttack }],
      30, 0,
      { name := "[E] ATTACKER", TEC := 168, state := ErrorStates.ERROR_PASSIVE },
      { name := "[A] DEFENDER", TEC := 127, state := ErrorStates.ACTIVE }⟩ : CanBusBase Ev3) from rfl]
  show Exp3.run 11 (Exp3.step
    (⟨620,
      [{ time := 651, seq := 29, kind := Ev3.collidePassive },
        { time := 800, seq := 28, kind := Ev3.assistantSend },
        { time := 1000000, seq := 3, kind := Ev3.sendAttack }],
      30, 0,
      { name := "[E] ATTACKER", TEC := 168, state := ErrorStates.ERROR_PASSIVE },
      { name := "[A] DEFENDER", TEC := 127, state := ErrorStates.ACTIVE }⟩ : CanBusBase Ev3)) = exp3Final
  rw [show Exp3.step
    (⟨620,
      [{ time := 651, seq := 29, kind := Ev3.collidePassive },
        { time := 800, seq := 28, kind := Ev3.assistantSend },
        { time := 1000000, seq := 3, kind := Ev3.sendAttack }],
      30, 0,
      { name := "[E] ATTACKER", TEC := 168, state := ErrorStates.ERROR_PASSIVE },
      { name := "[A] DEFENDER", TEC := 127, state := ErrorStates.ACTIVE }⟩ : CanBusBase Ev3) =
    (⟨651,
      [{ time := 682, seq := 30, kind := Ev3.collidePassive },
        { time := 800, seq := 28, kind := Ev3.assistantSend },
        { time := 1000000, seq := 3, kind := Ev3.sendAttack }],
      31, 0,
      { name := "[E] ATTACKER", TEC := 176, state := ErrorStates.ERROR_PASSIVE },
      { name := "[A] DEFENDER", TEC := 127, state := ErrorStates.ACTIVE }⟩ : CanBusBase Ev3) from rfl]
  show Exp3.run 10 (Exp3.step
    (⟨651,
      [{ time := 682, seq := 30, kind := Ev3.collidePassive },
        { time := 800, seq := 28, kind := Ev3.assistantSend },
        { time := 1000000, seq := 3, kind := Ev3.sendAttack }],
      31, 0,
      { name := "[E] ATTACKER", TEC := 176, state := ErrorStates.ERROR_PASSIVE },
      { name := "[A] DEFENDER", TEC := 127, state := ErrorStates.ACTIVE }⟩ : CanBusBase Ev3)) = exp3Final
  rw [show Exp3.step
    (⟨651,
      [{ time := 682, seq := 30, kind := Ev3.collidePassive },
        { time := 800, seq := 28, kind := Ev3.assistantSend },
        { time := 1000000, seq := 3, kind := Ev3.sendAttack }],
      31, 0,
      { name := "[E] ATTACKER", TEC := 176, state := ErrorStates.ERROR_PASSIVE },
      { name := "[A] DEFENDER", TEC := 127, state := ErrorStates.ACTIVE }⟩ : CanBusBase Ev3) =
    (⟨682,
      [{ time := 713, seq := 31, kind := Ev3.collidePassive },
        { time := 800, seq := 28, kind := Ev3.assistantSend },
        { time := 1000000, seq := 3, kind := Ev3.sendAttack }],
      32, 0,
      { name := "[E] ATTACKER", TEC := 184, state := ErrorStates.ERROR_PASSIVE },
      { name := "[A] DEFENDER", TEC := 127, state := ErrorStates.ACTIVE }⟩ : CanBusBase Ev3) from rfl]
  show Exp3.run 9 (Exp3.step
    (⟨682,
      [{ time := 713, seq := 31, kind := Ev3.collidePassive },
        { time := 800, seq := 28, kind := Ev3.assistantSend },
        { time := 1000000, seq := 3, kind := Ev3.sendAttack }],
      32, 0,
      { name := "[E] ATTACKER", TEC := 184, state := ErrorStates.ERROR_PASSIVE },
      { name := "[A] DEFENDER", TEC := 127, state := ErrorStates.ACTIVE }⟩ : CanBusBase Ev3)) = exp3Final
  rw [show Exp3.step
    (⟨682,
      [{ time := 713, seq := 31, kind := Ev3.collidePassive },
        { time := 800, seq := 28, kind := Ev3.assistantSend },
        { time := 1000000, seq := 3, kind := Ev3.sendAttack }],
      32, 0,
      { name := "[E] ATTACKER", TEC := 184, state := ErrorStates.ERROR_PASSIVE },
      { name := "[A] DEFENDER", TEC := 127, state := ErrorStates.ACTIVE }⟩ : CanBusBase Ev3) =
    (⟨713,
      [{ time := 744, seq := 32, kind := Ev3.collidePassive },
        { time := 800, seq := 28, kind := Ev3.assistantSend },
        { time := 1000000, seq := 3, kind := Ev3.sendAttack }],
      33, 0,
      { name := "[E] ATTACKER", TEC := 192, state := ErrorStates.ERROR_PASSIVE },
      { name := "[A] DEFENDER", TEC := 127, state := ErrorStates.ACTIVE }⟩ : CanBusBase Ev3) from rfl]
  show Exp3.run 8 (Exp3.step
    (⟨713,
      [{ time := 744, seq := 32, kind := Ev3.collidePassive },
        { time := 800, seq := 28, kind := Ev3.assistantSend },
        { time := 1000000, seq := 3, kind := Ev3.sendAttack }],
      33, 0,
      { name := "[E] ATTACKER", TEC := 192, state := ErrorStates.ERROR_PASSIVE },
      { name := "[A] DEFENDER", TEC := 127, state := ErrorStates.ACTIVE }⟩ : CanBusBase Ev3)) = exp3Final
  rw [show Exp3.step
    (⟨713,
      [{ time := 744, seq := 32, kind := Ev3.collidePassive },
        { time := 800, seq := 28, kind := Ev3.assistantSend },
        { time := 1000000, seq := 3, kind := Ev3.sendAttack }],
      33, 0,
      { name := "[E] ATTACKER", TEC := 192, state := ErrorStates.ERROR_PASSIVE },
      { name := "[A] DEFENDER", TEC := 127, state := ErrorStates.ACTIVE }⟩ : CanBusBase Ev3) =
    (⟨744,
      [{ time := 775, seq := 33, kind := Ev3.collidePassive },
        { time := 800, seq := 28, kind := Ev3.assistantSend },
        { time := 1000000, seq := 3, kind := Ev3.sendAttack }],
      34, 0,
      { name := "[E] ATTACKER", TEC := 200, state := ErrorStates.ERROR_PASSIVE },
      { name := "[A] DEFENDER", TEC := 127, state := ErrorStates.ACTIVE }⟩ : CanBusBase Ev3) from rfl]
  show Exp3.run 7 (Exp3.step
    (⟨744,
      [{ time := 775, seq := 33, kind := Ev3.collidePassive },
        { time := 800, seq := 28, kind := Ev3.assistantSend },
        { time := 1000000, seq := 3, kind := Ev3.sendAttack }],
      34, 0,
      { name := "[E] ATTACKER", TEC := 200, state := ErrorStates.ERROR_PASSIVE },
      { name := "[A] DEFENDER", TEC := 127, state := ErrorStates.ACTIVE }⟩ : CanBusBase Ev3)) = exp3Final
  rw [show Exp3.step
    (⟨744,
      [{ time := 775, seq := 33, kind := Ev3.collidePassive },
        { time := 800, seq := 28, kind := Ev3.assistantSend },
        { time := 1000000, seq := 3, kind := Ev3.sendAttack }],
      34, 0,
      { name := "[E] ATTACKER", TEC := 200, state := ErrorStates.ERROR_PASSIVE },
      { name := "[A] DEFENDER", TEC := 127, state := ErrorStates.ACTIVE }⟩ : CanBusBase Ev3) =
    (⟨775,
      [{ time := 800, seq := 28, kind := Ev3.assistantSend },
        { time := 806, seq := 34, kind := Ev3.collidePassive },
        { time := 1000000, seq := 3, kind := Ev3.sendAttack }],
      35, 0,
      { name := "[E] ATTACKER", TEC := 208, state := ErrorStates.ERROR_PASSIVE },
      { name := "[A] DEFENDER", TEC := 127, state := ErrorStates.ACTIVE }⟩ : CanBusBase Ev3) from rfl]
  show Exp3.run 6 (Exp3.step
    (⟨775,
      [{ time := 800, seq := 28, kind := Ev3.assistantSend },
        { time := 806, seq := 34, kind := Ev3.collidePassive },
        { time := 1000000, seq := 3, kind := Ev3.sendAttack }],
      35, 0,
      { name := "[E] ATTACKER", TEC := 208, state := ErrorStates.ERROR_PASSIVE },
      { name := "[A] DEFENDER", TEC := 127, state := ErrorStates.ACTIVE }⟩ : CanBusBase Ev3)) = exp3Final
  rw [show Exp3.step
    (⟨775,
      [{ time := 800, seq := 28, kind := Ev3.assistantSend },
        { time := 806, seq := 34, kind := Ev3.collidePassive },
        { time := 1000000, seq := 3, kind := Ev3.sendAttack }],
      35, 0,
      { name := "[E] ATTACKER", TEC := 208, state := ErrorStates.ERROR_PASSIVE },
      { name := "[A] DEFENDER", TEC := 127, state := ErrorStates.ACTIVE }⟩ : CanBusBase Ev3) =
    (⟨800,
      [{ time := 806, seq := 34, kind := Ev3.collidePassive },
        { time := 1000, seq := 35, kind := Ev3.assistantSend },
        { time := 1000000, seq := 3, kind := Ev3.sendAttack }],
      36, 0,
      { name := "[E] ATTACKER", TEC := 208, state := ErrorStates.ERROR_PASSIVE },
      { name := "[A] DEFENDER", TEC := 127, state := ErrorStates.ACTIVE }⟩ : CanBusBase Ev3) from rfl]
  show Exp3.run 5 (Exp3.step
    (⟨800,
      [{ time := 806, seq := 34, kind := Ev3.collidePassive },
        { time := 1000, seq := 35, kind := Ev3.assistantSend },
        { time := 1000000, seq := 3, kind := Ev3.sendAttack }],
      36, 0,
      { name := "[E] ATTACKER", TEC := 208, state := ErrorStates.ERROR_PASSIVE },
      { name := "[A] DEFENDER", TEC := 127, state := ErrorStates.ACTIVE }⟩ : CanBusBase Ev3)) = exp3Final
  rw [show Exp3.step
    (⟨800,
      [{ time := 806, seq := 34, kind := Ev3.collidePassive },
        { time := 1000, seq := 35, kind := Ev3.assistantSend },
        { time := 1000000, seq := 3, kind := Ev3.sendAttack }],
      36, 0,
      { name := "[E] ATTACKER", TEC := 208, state := ErrorStates.ERROR_PASSIVE },
      { name := "[A] DEFENDER", TEC := 127, state := ErrorStates.ACTIVE }⟩ : CanBusBase Ev3) =
    (⟨806,
      [{ time := 837, seq := 36, kind := Ev3.collidePassive },
        { time := 1000, seq := 35, kind := Ev3.assistantSend },
        { time := 1000000, seq := 3, kind := Ev3.sendAttack }],
      37, 0,
      { name := "[E] ATTACKER", TEC := 216, state := ErrorStates.ERROR_PASSIVE },
      { name := "[A] DEFENDER", TEC := 127, state := ErrorStates.ACTIVE }⟩ : CanBusBase Ev3) from rfl]
  show Exp3.run 4 (Exp3.step
    (⟨806,
      [{ time := 837, seq := 36, kind := Ev3.collidePassive },
        { time := 1000, seq := 35, kind := Ev3.assistantSend },
        { time := 1000000, seq := 3, kind := Ev3.sendAttack }],
      37, 0,
      { name := "[E] ATTACKER", TEC := 216, state := ErrorStates.ERROR_PASSIVE },
      { name := "[A] DEFENDER", TEC := 127, state := ErrorStates.ACTIVE }⟩ : CanBusBase Ev3)) = exp3Final
  rw [show Exp3.step
    (⟨806,
      [{ time := 837, seq := 36, kind := Ev3.collidePassive },
        { time := 1000, seq := 35, kind := Ev3.assistantSend },
        { time := 1000000, seq := 3, kind := Ev3.sendAttack }],
      37, 0,
      { name := "[E] ATTACKER", TEC := 216, state := ErrorStates.ERROR_PASSIVE },
      { name := "[A] DEFENDER", TEC := 127, state := ErrorStates.ACTIVE }⟩ : CanBusBase Ev3) =
    (⟨837,
      [{ time := 868, seq := 37, kind := Ev3.collidePassive },
        { time := 1000, seq := 35, kind := Ev3.assistantSend },
        { time := 1000000, seq := 3, kind := Ev3.sendAttack }],
      38, 0,
      { name := "[E] ATTACKER", TEC := 224, state := ErrorStates.ERROR_PASSIVE },
      { name := "[A] DEFENDER", TEC := 127, state := ErrorStates.ACTIVE }⟩ : CanBusBase Ev3) from rfl]
  show Exp3.run 3 (Exp3.step
    (⟨837,
      [{ time := 868, seq := 37, kind := Ev3.collidePassive },
        { time := 1000, seq := 35, kind := Ev3.assistantSend },
        { time := 1000000, seq := 3, kind := Ev3.sendAttack }],
      38, 0,
      { name := "[E] ATTACKER", TEC := 224, state := ErrorStates.ERROR_PASSIVE },
      { name := "[A] DEFENDER", TEC := 127, state := ErrorStates.ACTIVE }⟩ : CanBusBase Ev3)) = exp3Final
  rw [show Exp3.step
    (⟨837,
      [{ time := 868, seq := 37, kind := Ev3.collidePassive },
        { time := 1000, seq := 35, kind := Ev3.assistantSend },
        { time := 1000000, seq := 3, kind := Ev3.sendAttack }],
      38, 0,
      { name := "[E] ATTACKER", TEC := 224, state := ErrorStates.ERROR_PASSIVE },
      { name := "[A] DEFENDER", TEC := 127, state := ErrorStates.ACTIVE }⟩ : CanBusBase Ev3) =
    (⟨868,
      [{ time := 899, seq := 38, kind := Ev3.collidePassive },
        { time := 1000, seq := 35, kind := Ev3.assistantSend },
        { time := 1000000, seq := 3, kind := Ev3.sendAttack }],
      39, 0,
      { name := "[E] ATTACKER", TEC := 232, state := ErrorStates.ERROR_PASSIVE },
      { name := "[A] DEFENDER", TEC := 127, state := ErrorStates.ACTIVE }⟩ : CanBusBase Ev3) from rfl]
  show Exp3.run 2 (Exp3.step
    (⟨868,
      [{ time := 899, seq := 38, kind := Ev3.collidePassive },
        { time := 1000, seq := 35, kind := Ev3.assistantSend },
        { time := 1000000, seq := 3, kind := Ev3.sendAttack }],
      39, 0,
      { name := "[E] ATTACKER", TEC := 232, state := ErrorStates.ERROR_PASSIVE },
      { name := "[A] DEFENDER", TEC := 127, state := ErrorStates.ACTIVE }⟩ : CanBusBase Ev3)) = exp3Final
  rw [show Exp3.step
    (⟨868,
      [{ time := 899, seq := 38, kind := Ev3.collidePassive },
        { time := 1000, seq := 35, kind := Ev3.assistantSend },
        { time := 1000000, seq := 3, kind := Ev3.sendAttack }],
      39, 0,
      { name := "[E] ATTACKER", TEC := 232, state := ErrorStates.ERROR_PASSIVE },
      { name := "[A] DEFENDER", TEC := 127, state := ErrorStates.ACTIVE }⟩ : CanBusBase Ev3) =
    (⟨899,
      [{ time := 930, seq := 39, kind := Ev3.collidePassive },
        { time := 1000, seq := 35, kind := Ev3.assistantSend },
        { time := 1000000, seq := 3, kind := Ev3.sendAttack }],
      40, 0,
      { name := "[E] ATTACKER", TEC := 240, state := ErrorStates.ERROR_PASSIVE },
      { name := "[A] DEFENDER", TEC := 127, state := ErrorStates.ACTIVE }⟩ : CanBusBase Ev3) from rfl]
  show Exp3.run 1 (Exp3.step
    (⟨899,
      [{ time := 930, seq := 39, kind := Ev3.collidePassive },
        { time := 1000, seq := 35, kind := Ev3.assistantSend },
        { time := 1000000, seq := 3, kind := Ev3.sendAttack }],
      40, 0,
      { name := "[E] ATTACKER", TEC := 240, state := ErrorStates.ERROR_PASSIVE },
      { name := "[A] DEFENDER", TEC := 127, state := ErrorStates.ACTIVE }⟩ : CanBusBase Ev3)) = exp3Final
  rw [show Exp3.step
    (⟨899,
      [{ time := 930, seq := 39, kind := Ev3.collidePassive },
        { time := 1000, seq := 35, kind := Ev3.assistantSend },
        { time := 1000000, seq := 3, kind := Ev3.sendAttack }],
      40, 0,
      { name := "[E] ATTACKER", TEC := 240, state := ErrorStates.ERROR_PASSIVE },
      { name := "[A] DEFENDER", TEC := 127, state := ErrorStates.ACTIVE }⟩ : CanBusBase Ev3) =
    (⟨930,
      [{ time := 961, seq := 40, kind := Ev3.collidePassive },
        { time := 1000, seq := 35, kind := Ev3.assistantSend },
        { time := 1000000, seq := 3, kind := Ev3.sendAttack }],
      41, 0,
      { name := "[E] ATTACKER", TEC := 248, state := ErrorStates.ERROR_PASSIVE },
      { name := "[A] DEFENDER", TEC := 127, state := ErrorStates.ACTIVE }⟩ : CanBusBase Ev3) from rfl]
  show Exp3.run 0 (Exp3.step
    (⟨930,
      [{ time := 961, seq := 40, kind := Ev3.collidePassive },
        { time := 1000, seq := 35, kind := Ev3.assistantSend },
        { time := 1000000, seq := 3, kind := Ev3.sendAttack }],
      41, 0,
      { name := "[E] ATTACKER", TEC := 248, state := ErrorStates.ERROR_PASSIVE },
      { name := "[A] DEFENDER", TEC := 127, state := ErrorStates.ACTIVE }⟩ : CanBusBase Ev3)) = exp3Final
  rw [show Exp3.step
    (⟨930,
      [{ time := 961, seq := 40, kind := Ev3.collidePassive },
        { time := 1000, seq := 35, kind := Ev3.assistantSend },
        { time := 1000000, seq := 3, kind := Ev3.sendAttack }],
      41, 0,
      { name := "[E] ATTACKER", TEC := 248, state := ErrorStates.ERROR_PASSIVE },
      { name := "[A] DEFENDER", TEC := 127, state := ErrorStates.ACTIVE }⟩ : CanBusBase Ev3) =
    (⟨961,
      [{ time := 1000, seq := 35, kind := Ev3.assistantSend },
        { time := 1000000, seq := 3, kind := Ev3.sendAttack }],
      41, 0,
      { name := "[E] ATTACKER", TEC := 256, state := ErrorStates.BUS_OFF },
      { name := "[A] DEFENDER", TEC := 127, state := ErrorStates.ACTIVE }⟩ : CanBusBase Ev3) from rfl]
  rfl

/-- C8: with the source's example parameters (gap 31 µs, assistant gap
200 µs, attacker period 1 s), experiment 3's run reaches, after exactly
39 popped events, a state where the attacker's counter is 256 and its
state BUS_OFF while two events are still pending — and the loop is
stopped there: a further iteration leaves the state unchanged, because
the loop guard tests the attacker's state before popping. -/
theorem c8_assisted_bus_off :
    (Exp3.run 39 Exp3.start).attacker.TEC = 256 ∧
    (Exp3.run 39 Exp3.start).attacker.state = ErrorStates.BUS_OFF ∧
    (Exp3.run 39 Exp3.start).events.length = 2 ∧
    (Exp3.run 39 Exp3.start).events ≠ [] ∧
    Exp3.step (Exp3.run 39 Exp3.start) = Exp3.run 39 Exp3.start ∧
    (Exp3.run 39 Exp3.start).defender.TEC = 127 := by
  rw [exp3_run39]
  refine ⟨rfl, rfl, rfl, by decide, rfl, rfl⟩

/-- The scheduler well-formedness the run loops maintain: the pending
list is key-sorted, sequence numbers are below the counter, and every
pending fire time is at or after the clock. -/
def TimeWF {K : Type} (s : CanBusBase K) : Prop :=
  SortedEv s.events ∧ SeqBound s.events s.counter ∧
  TimeLB s.events s.time_us

theorem schedule_timeWF {K : Type} (d : Int) (cb : K)
    (s : CanBusBase K) (hd : 0 ≤ d) (h : TimeWF s) :
    TimeWF (CanBusBase.schedule d cb s) := by
  obtain ⟨h1, h2, h3⟩ := h
  refine ⟨insertEv_sorted h1 (fun x hx => Nat.ne_of_lt (h2 x hx)), ?_, ?_⟩
  · exact insertEv_seqBound (fun x hx => Nat.lt_succ_of_lt (h2 x hx))
      (Nat.lt_succ_self _)
  · exact insertEv_timeLB h3 (show s.time_us ≤ s.time_us + d from by omega)

theorem timeWF_pop {K : Type} {t : Int} {e : Event K}
    {rest : List (Event K)} {c r : Nat} {a dn : CanNode}
    (h : TimeWF ⟨t, e :: rest, c, r, a, dn⟩) (r' : Nat) (a' dn' : CanNode) :
    TimeWF ⟨e.time, rest, c, r', a', dn'⟩ ∧ t ≤ e.time := by
  obtain ⟨h1, h2, h3⟩ := h
  obtain ⟨hhead, htail⟩ := List.pairwise_cons.mp h1
  refine ⟨⟨htail, ?_, ?_⟩, h3 e (List.mem_cons_self e rest)⟩
  · exact fun x hx => h2 x (List.mem_cons_of_mem e hx)
  · exact fun x hx => Event.keyLT_time_le (hhead x hx)

theorem step1_timeWF (N : Nat) (s : CanBusBase Ev1) (h : TimeWF s) :
    TimeWF (Exp1.step N s) ∧ s.time_us ≤ (Exp1.step N s).time_us := by
  obtain ⟨t, evs, c, r, a, dn⟩ := s
  rcases evs with _ | ⟨e, rest⟩
  · exact ⟨h, le_refl t⟩
  rcases e with ⟨et, sq, ek⟩
  obtain ⟨hpop, hle⟩ := timeWF_pop h r a dn
  cases ek
  case startRound =>
      show TimeWF (Exp1.hStartRound N ⟨et, rest, c, r, a, dn⟩) ∧
        t ≤ (Exp1.hStartRound N ⟨et, rest, c, r, a, dn⟩).time_us
      rw [hStartRound_eq]
      by_cases hN : r + 1 > N
      · rw [if_pos hN]
        exact ⟨hpop, hle⟩
      · rw [if_neg hN]
        exact ⟨schedule_timeWF 0 _ _ (by omega) hpop, hle⟩
  case handleCollision =>
      show TimeWF (Exp1.hHandleCollision ⟨et, rest, c, r, a, dn⟩) ∧
        t ≤ (Exp1.hHandleCollision ⟨et, rest, c, r, a, dn⟩).time_us
      rw [hHandleCollision_eq]
      by_cases hc : (CanNode.collide a).state = ErrorStates.ACTIVE
      · rw [if_pos hc]
        exact ⟨schedule_timeWF GAP_US _ _ (by decide) hpop, hle⟩
      · rw [if_neg hc]
        exact ⟨schedule_timeWF GAP_US _ _ (by decide) hpop, hle⟩
  case recoverDefender =>
      show TimeWF (Exp1.hRecoverDefender ⟨et, rest, c, r, a, dn⟩) ∧
        t ≤ (Exp1.hRecoverDefender ⟨et, rest, c, r, a, dn⟩).time_us
      rw [hRecoverDefender_eq]
      by_cases hc : (CanNode.succeed dn).state ≠ ErrorStates.ACTIVE
      · rw [if_pos hc]
        exact ⟨schedule_timeWF GAP_US _ _ (by decide) hpop, hle⟩
      · rw [if_neg hc]
        exact ⟨schedule_timeWF GAP_US _ _ (by decide) hpop, hle⟩
  case recoverAttacker =>
      show TimeWF (Exp1.hRecoverAttacker ⟨et, rest, c, r, a, dn⟩) ∧
        t ≤ (Exp1.hRecoverAttacker ⟨et, rest, c, r, a, dn⟩).time_us
      rw [hRecoverAttacker_eq]
      by_cases hc : (CanNode.succeed a).state ≠ ErrorStates.ACTIVE
      · rw [if_pos hc]
        exact ⟨schedule_timeWF GAP_US _ _ (by decide) hpop, hle⟩
      · rw [if_neg hc]
        exact ⟨schedule_timeWF GAP_US _ _ (by decide) hpop, hle⟩

theorem hSendAttack_eq (t : Int) (evs : List (Event Ev3)) (c r : Nat)
    (a dn : CanNode) :
    Exp3.hSendAttack ⟨t, evs, c, r, a, dn⟩ =
      if a.state = ErrorStates.ACTIVE then
        CanBusBase.schedule ATTACKER_PERIOD_US Ev3.sendAttack
          (CanBusBase.schedule 0 Ev3.handleCollision ⟨t, evs, c, r, a, dn⟩)
      else CanBusBase.schedule 0 Ev3.handleCollision ⟨t, evs, c, r, a, dn⟩ :=
  rfl

theorem hHandleCollision3_eq (t : Int) (evs : List (Event Ev3))
    (c r : Nat) (a dn : CanNode) :
    Exp3.hHandleCollision ⟨t, evs, c, r, a, dn⟩ =
      if (CanNode.collide a).state = ErrorStates.ACTIVE then
        CanBusBase.schedule GAP_US Ev3.handleCollision
          ⟨t, evs, c, r, CanNode.collide a, CanNode.collide dn⟩
      else
        CanBusBase.schedule GAP_US Ev3.recoverDefender
          ⟨t, evs, c, r, CanNode.collide a, CanNode.collide dn⟩ :=
  rfl

theorem hRecoverDefender3_eq (t : Int) (evs : List (Event Ev3))
    (c r : Nat) (a dn : CanNode) :
    Exp3.hRecoverDefender ⟨t, evs, c, r, a, dn⟩ =
      if (CanNode.succeed dn).state ≠ ErrorStates.ACTIVE then
        CanBusBase.schedule GAP_US Ev3.recoverDefender
          ⟨t, evs, c, r, a, CanNode.succeed dn⟩
      else
        CanBusBase.schedule 0 Ev3.collidePassive
          ⟨t, evs, c, r, a, CanNode.succeed dn⟩ :=
  rfl

theorem hCollidePassive_eq (t : Int) (evs : List (Event Ev3))
    (c r : Nat) (a dn : CanNode) :
    Exp3.hCollidePassive ⟨t, evs, c, r, a, dn⟩ =
      if (CanNode.collide a).state ≠ ErrorStates.BUS_OFF then
        CanBusBase.schedule (min ASSISTANT_GAP_US GAP_US) Ev3.collidePassive
          ⟨t, evs, c, r, CanNode.collide a, dn⟩
      else ⟨t, evs, c, r, CanNode.collide a, dn⟩ :=
  rfl

theorem hAssistantSend_eq (t : Int) (evs : List (Event Ev3))
    (c r : Nat) (a dn : CanNode) :
    Exp3.hAssistantSend ⟨t, evs, c, r, a, dn⟩ =
      if a.state ≠ ErrorStates.BUS_OFF then
        CanBusBase.schedule ASSISTANT_GAP_US Ev3.assistantSend
          ⟨t, evs, c, r, a, dn⟩
      else ⟨t, evs, c, r, a, dn⟩ :=
  rfl

theorem step3_timeWF (s : CanBusBase Ev3) (h : TimeWF s) :
    TimeWF (Exp3.step s) ∧ s.time_us ≤ (Exp3.step s).time_us := by
  obtain ⟨t, evs, c, r, a, dn⟩ := s
  by_cases hbo : (⟨t, evs, c, r, a, dn⟩ : CanBusBase Ev3).attacker.state =
      ErrorStates.BUS_OFF
  · unfold Exp3.step
    rw [if_pos hbo]
    exact ⟨h, le_refl t⟩
  unfold Exp3.step
  rw [if_neg hbo]
  rcases evs with _ | ⟨e, rest⟩
  · exact ⟨h, le_refl t⟩
  rcases e with ⟨et, sq, ek⟩
  obtain ⟨hpop, hle⟩ := timeWF_pop h r a dn
  cases ek
  · show TimeWF (Exp3.hSendAttack ⟨et, rest, c, r, a, dn⟩) ∧
      t ≤ (Exp3.hSendAttack ⟨et, rest, c, r, a, dn⟩).time_us
    rw [hSendAttack_eq]
    by_cases hc : a.state = ErrorStates.ACTIVE
    · rw [if_pos hc]
      exact ⟨schedule_timeWF ATTACKER_PERIOD_US _ _ (by decide)
        (schedule_timeWF 0 _ _ (by omega) hpop), hle⟩
    · rw [if_neg hc]
      exact ⟨schedule_timeWF 0 _ _ (by omega) hpop, hle⟩
  · show TimeWF (Exp3.hHandleCollision ⟨et, rest, c, r, a, dn⟩) ∧
      t ≤ (Exp3.hHandleCollision ⟨et, rest, c, r, a, dn⟩).time_us
    rw [hHandleCollision3_eq]
    by_cases hc : (CanNode.collide a).state = ErrorStates.ACTIVE
    · rw [if_pos hc]
      exact ⟨schedule_timeWF GAP_US _ _ (by decide) hpop, hle⟩
    · rw [if_neg hc]
      exact ⟨schedule_timeWF GAP_US _ _ (by decide) hpop, hle⟩
  · show TimeWF (Exp3.hRecoverDefender ⟨et, rest, c, r, a, dn⟩) ∧
      t ≤ (Exp3.hRecoverDefender ⟨et, rest, c, r, a, dn⟩).time_us
    rw [hRecoverDefender3_eq]
    by_cases hc : (CanNode.succeed dn).state ≠ ErrorStates.ACTIVE
    · rw [if_pos hc]
      exact ⟨schedule_timeWF GAP_US _ _ (by decide) hpop, hle⟩
    · rw [if_neg hc]
      exact ⟨schedule_timeWF 0 _ _ (by omega) hpop, hle⟩
  · show TimeWF (Exp3.hCollidePassive ⟨et, rest, c, r, a, dn⟩) ∧
      t ≤ (Exp3.hCollidePassive ⟨et, rest, c, r, a, dn⟩).time_us
    rw [hCollidePassive_eq]
    by_cases hc : (CanNode.collide a).state ≠ ErrorStates.BUS_OFF
    · rw [if_pos hc]
      exact ⟨schedule_timeWF (min ASSISTANT_GAP_US GAP_US) _ _
        (by decide) hpop, hle⟩
    · rw [if_neg hc]
      exact ⟨hpop, hle⟩
  · show TimeWF (Exp3.hAssistantSend ⟨et, rest, c, r, a, dn⟩) ∧
      t ≤ (Exp3.hAssistantSend ⟨et, rest, c, r, a, dn⟩).time_us
    rw [hAssistantSend_eq]
    by_cases hc : a.state ≠ ErrorStates.BUS_OFF
    · rw [if_pos hc]
      exact ⟨schedule_timeWF ASSISTANT_GAP_US _ _ (by decide) hpop, hle⟩
    · rw [if_neg hc]
      exact ⟨hpop, hle⟩

theorem run1_timeWF (N k : Nat) (s : CanBusBase Ev1) (h : TimeWF s) :
    TimeWF (Exp1.run N k s) := by
  induction k generalizing s with
  | zero => exact h
  | succ m ih => exact ih (Exp1.step N s) (step1_timeWF N s h).1

theorem run3_timeWF (k : Nat) (s : CanBusBase Ev3) (h : TimeWF s) :
    TimeWF (Exp3.run k s) := by
  induction k generalizing s with
  | zero => exact h
  | succ m ih => exact ih (Exp3.step s) (step3_timeWF s h).1

theorem run1_succ_last (N k : Nat) (s : CanBusBase Ev1) :
    Exp1.run N (k + 1) s = Exp1.step N (Exp1.run N k s) := by
  induction k generalizing s with
  | zero => rfl
  | succ m ih =>
      show Exp1.run N (m + 1) (Exp1.step N s) = _
      rw [ih (Exp1.step N s)]
      rfl

theorem run3_succ_last (k : Nat) (s : CanBusBase Ev3) :
    Exp3.run (k + 1) s = Exp3.step (Exp3.run k s) := by
  induction k generalizing s with
  | zero => rfl
  | succ m ih =>
      show Exp3.run (m + 1) (Exp3.step s) = _
      rw [ih (Exp3.step s)]
      rfl

theorem timeWF_start1 : TimeWF Exp1.start := by
  refine ⟨List.pairwise_singleton _ _, ?_, ?_⟩
  · intro e he
    rw [List.mem_singleton.mp he]
    decide
  · intro e he
    rw [List.mem_singleton.mp he]
    decide

theorem timeWF_start3 : TimeWF Exp3.start := by
  refine ⟨?_, ?_, ?_⟩
  · refine List.pairwise_cons.mpr ⟨?_, List.pairwise_singleton _ _⟩
    intro y hy
    rw [List.mem_singleton.mp hy]
    decide
  · intro e he
    rcases List.mem_cons.mp he with hm | hm
    · rw [hm]
      decide
    · rw [List.mem_singleton.mp hm]
      decide
  · intro e he
    rcases List.mem_cons.mp he with hm | hm
    · rw [hm]
      decide
    · rw [List.mem_singleton.mp hm]
      decide

/-- C6: in both scenario runs the virtual clock never decreases — the
clock after iteration `k + 1` is at least the clock after iteration
`k` — and all pending fire times stay at or after the current clock
(all driver delays are non-negative, so every newly scheduled event
fires at or after the clock). -/
theorem c6_monotone_clock :
    (∀ N k, (Exp1.run N k Exp1.start).time_us ≤
      (Exp1.run N (k + 1) Exp1.start).time_us) ∧
    (∀ N k, TimeLB (Exp1.run N k Exp1.start).events
      (Exp1.run N k Exp1.start).time_us) ∧
    (∀ k, (Exp3.run k Exp3.start).time_us ≤
      (Exp3.run (k + 1) Exp3.start).time_us) ∧
    (∀ k, TimeLB (Exp3.run k Exp3.start).events
      (Exp3.run k Exp3.start).time_us) := by
  refine ⟨?_, ?_, ?_, ?_⟩
  · intro N k
    rw [run1_succ_last]
    exact (step1_timeWF N _ (run1_timeWF N k Exp1.start timeWF_start1)).2
  · intro N k
    exact (run1_timeWF N k Exp1.start timeWF_start1).2.2
  · intro k
    rw [run3_succ_last]
    exact (step3_timeWF _ (run3_timeWF k Exp3.start timeWF_start3)).2
  · intro k
    exact (run3_timeWF k Exp3.start timeWF_start3).2.2
